import Mathlib

/-!
Verification development for the Win32 joystick backend
(`src/SFML/Window/Win32/JoystickImpl.cpp`, canonical first variant).

The C++ code is shallowly embedded: the global `joysticks` vector becomes a
`List JoystickImpl` threaded through the dispatch functions, the persistent
`usageSizeDataChunk` scratch buffer becomes a `Nat → Nat` map threaded next to
it, Windows `float` arithmetic is idealized as `Rat`, and each fallible
platform query (`GetRawInputData`, `HidP_GetCaps`, `HidP_GetUsages`, ...) is an
oracle field of an event structure whose `Option`/`Bool` value selects the
success or the early-return failure path of the source.
-/

namespace SFML

namespace Joystick

/-- Modelled from the spec: `sf::Joystick::Count` (registry capacity, N = 8) is
declared in a public header that is not part of src/. -/
def Count : Nat := 8

/-- Modelled from the spec: `sf::Joystick::ButtonCount` (dense button array
length, 32) is declared in a public header that is not part of src/. -/
def ButtonCount : Nat := 32

/-- Modelled from the spec: `sf::Joystick::AxisCount` (8 axis identifiers) is
declared in a public header that is not part of src/. -/
def AxisCount : Nat := 8

end Joystick

/-- `sf::Joystick::Axis`: fixed ordered enumeration, ordinal 0-7. -/
inductive Axis where
  | X
  | Y
  | Z
  | R
  | U
  | V
  | PovX
  | PovY
deriving DecidableEq, Repr, Fintype

/-- `getAxis` (JoystickImpl.cpp 87-110): ordinal to axis. The source throws
`std::out_of_range` for index ≥ 8; every call site guards the index by
`Joystick::AxisCount`, so the value returned here for index ≥ 8 is never
reached by the embedded dispatch code (we return `X`). -/
def getAxis : Nat → Axis
  | 0 => Axis.X
  | 1 => Axis.Y
  | 2 => Axis.Z
  | 3 => Axis.R
  | 4 => Axis.U
  | 5 => Axis.V
  | 6 => Axis.PovX
  | 7 => Axis.PovY
  | _ => Axis.X

/-- `sf::priv::JoystickCaps`. -/
structure JoystickCaps where
  buttonCount : Nat := 0
  axes : Axis → Bool := fun _ => false

/-- `sf::priv::JoystickState`; `float` axis values are idealized as `Rat`. -/
structure JoystickState where
  connected : Bool := false
  buttons : List Bool := List.replicate Joystick.ButtonCount false
  axes : Axis → Rat := fun _ => 0

/-- `sf::Joystick::Identification`. -/
structure Identification where
  name : String := ""
  vendorId : Nat := 0
  productId : Nat := 0

/-- The sentinel `0xFFFFFFFF` the source compares `m_xInputIndex` against to
decide whether a slot currently holds an XInput (poll-backed) assignment. -/
def UNASSIGNED : Nat := 0xFFFFFFFF

/-- One registry slot (`sf::priv::JoystickImpl`). The member declarations and
default initializers of `m_lastDeviceHandle`, `m_useXInput`, `m_xInputIndex`
and `m_xInputPacketNumber` live in a header that is not part of src/; their
defaults here are modelled from the spec: a fresh slot is backend-None
(no token, not XInput, poll index unassigned), matching the code's use of
`nullptr` for a free token and `0xFFFFFFFF` for an unassigned poll index. -/
structure JoystickImpl where
  m_index : Nat := 0
  m_lastDeviceHandle : Option Nat := none
  m_useXInput : Bool := false
  m_xInputIndex : Nat := UNASSIGNED
  m_xInputPacketNumber : Nat := 0
  m_caps : JoystickCaps := {}
  m_identification : Identification := {}
  m_state : JoystickState := {}

instance : Inhabited JoystickImpl := ⟨{}⟩

/-- `JoystickImpl::initialize` (JoystickImpl.cpp 637-664), registry part:
Count slots, `m_index = i`, `connected = false`. -/
def initialRegistry : List JoystickImpl :=
  (List.range Joystick.Count).map fun i =>
    { m_index := i, m_state := { connected := false } }

/-! ## IdentityResolver: `extractVidPid` (JoystickImpl.cpp 118-164) -/

/-- Value of a hexadecimal digit character (0-9, a-f, A-F by code point),
`none` for non-digits. -/
def hexVal (c : Char) : Option Nat :=
  if 48 ≤ c.toNat ∧ c.toNat ≤ 57 then some (c.toNat - 48)
  else if 97 ≤ c.toNat ∧ c.toNat ≤ 102 then some (c.toNat - 87)
  else if 65 ≤ c.toNat ∧ c.toNat ≤ 70 then some (c.toNat - 55)
  else none

/-- `iswspace` in the C locale, as consulted by `wcstoul`. -/
def isSpaceW (c : Char) : Bool :=
  c = ' ' || c = '\t' || c = '\n' || c = Char.ofNat 11 || c = Char.ofNat 12 || c = '\r'

/-- Greedy hexadecimal digit consumption of `wcstoul`: returns the accumulated
value and the unconsumed remainder. -/
def parseHexDigits : List Char → Nat → Nat × List Char
  | [], acc => (acc, [])
  | c :: rest, acc =>
    match hexVal c with
    | some d => parseHexDigits rest (acc * 16 + d)
    | none => (acc, c :: rest)

/-- The optional sign of the `wcstoul` subject sequence: returns whether the
value is to be negated and the remaining characters. -/
def wcstoulStripSign : List Char → Bool × List Char
  | c :: r =>
    if c = '-' then (true, r) else if c = '+' then (false, r) else (false, c :: r)
  | [] => (false, [])

/-- The optional `0x`/`0X` prefix of the `wcstoul` subject sequence, consumed
only when a hexadecimal digit follows (per the C standard's longest-valid
subject-sequence rule). -/
def wcstoulStrip0x : List Char → List Char
  | a :: b :: r =>
    if a = '0' && (b = 'x' || b = 'X') &&
        (match r with | d :: _ => (hexVal d).isSome | [] => false) then r
    else a :: b :: r
  | l => l

/-- The digit run of `wcstoul` plus the source's success tests: `s` is the
whole C string (for the `*endptr == L'\0'` test when no digit is consumed),
`neg` the parsed sign, `t3` the characters after sign and prefix. Overflow
past `ULONG_MAX` sets `errno`, which the source rejects. -/
def wcstoulDigits (s : List Char) (neg : Bool) (t3 : List Char) : Option Nat :=
  match t3 with
  | [] => if s = [] then some 0 else none
  | c :: _ =>
    if (hexVal c).isSome then
      if (parseHexDigits t3 0).2 = [] then
        if (parseHexDigits t3 0).1 > 0xFFFFFFFF then none
        else some (if neg then
          (0x100000000 - (parseHexDigits t3 0).1 % 0x100000000) % 0x100000000
        else (parseHexDigits t3 0).1)
      else none
    else none

/-- Model of `wcstoul(s.c_str(), &endptr, 16)` (MSVC: 32-bit `unsigned long`)
combined with the source's `errno == 0 && *endptr == L'\0'` success test and
the C-string truncation at the first NUL: `some v` exactly when the whole
C string is consumed as a hex subject sequence without overflow, where the
subject sequence may begin with whitespace, a sign, and a `0x`/`0X` prefix
(followed by a hex digit), per the C standard. -/
def wcstoulHexFull (s0 : List Char) : Option Nat :=
  wcstoulDigits (s0.takeWhile (fun c => c ≠ Char.ofNat 0))
    (wcstoulStripSign
      ((s0.takeWhile (fun c => c ≠ Char.ofNat 0)).dropWhile isSpaceW)).1
    (wcstoulStrip0x
      (wcstoulStripSign
        ((s0.takeWhile (fun c => c ≠ Char.ofNat 0)).dropWhile isSpaceW)).2)

/-- `true` when the 4-character window of `s` starting at `i` equals `pat`. -/
def matchesAt (s pat : List Char) (i : Nat) : Bool :=
  decide ((s.drop i).take pat.length = pat)

/-- `std::wstring::find(pat)`: index of the first occurrence of `pat` in `s`,
`none` when absent (the source compares against `npos`). -/
def findMarker (s pat : List Char) : Option Nat :=
  (List.range s.length).find? (matchesAt s pat)

def vidPat : List Char := ['V', 'I', 'D', '_']

def pidPat : List Char := ['P', 'I', 'D', '_']

def igPat : List Char := ['I', 'G', '_']

structure VidPid where
  vid : Nat := 0
  pid : Nat := 0
deriving DecidableEq, Repr

/-- `extractVidPid` (JoystickImpl.cpp 118-164). The `isXInput` out-parameter is
modelled by the separate `pathHasIG`; the source sets it whenever `"IG_"`
occurs in the path, independently of the markers parsing, and the caller only
reads it when the returned optional is non-empty. -/
def extractVidPid (devicePath : List Char) : Option VidPid :=
  match findMarker devicePath vidPat with
  | none => none
  | some v0 =>
    let vidPos := v0 + 4
    if vidPos + 4 > devicePath.length then none
    else
      let vidStr := (devicePath.drop vidPos).take 4
      match findMarker devicePath pidPat with
      | none => none
      | some p0 =>
        let pidPos := p0 + 4
        if pidPos + 4 > devicePath.length then none
        else
          let pidStr := (devicePath.drop pidPos).take 4
          match wcstoulHexFull vidStr with
          | none => none
          | some vidLong =>
            if vidLong > 0xFFFF then none
            else
              match wcstoulHexFull pidStr with
              | none => none
              | some pidLong =>
                if pidLong > 0xFFFF then none
                else some { vid := vidLong, pid := pidLong }

/-- The `devicePath.find(L"IG_") != npos` test of `extractVidPid`. -/
def pathHasIG (devicePath : List Char) : Bool :=
  (findMarker devicePath igPat).isSome

/-! ## Arbitration: `dispatchDeviceConnected` (JoystickImpl.cpp 170-239) -/

/-- Platform inputs of one device-arrived event: the device handle, whether
`HidD_GetProductString` succeeded, the product name it produced, and the
device path string obtained from `GetRawInputDeviceInfoW(RIDI_DEVICENAME)`. -/
structure ArrivalEvent where
  handle : Nat
  productStringOk : Bool := true
  productName : String := ""
  devicePath : List Char := []

/-- The XInput capability loop of `dispatchDeviceConnected` (207-209):
`for i in [0, 6): caps.axes[getAxis(i)] = true`. -/
def xinputAxesCaps (axes0 : Axis → Bool) : Axis → Bool :=
  (List.range 6).foldl (fun a i => Function.update a (getAxis i) true) axes0

/-- The temporary `joystickImpl` built by `dispatchDeviceConnected` before the
placement loop: handle and `m_index = joysticks.size()` stored, identity and
`m_useXInput` filled from the product string / `extractVidPid`, XInput
capabilities and immediate connectedness when `m_useXInput` holds. -/
def builtJoystick (ev : ArrivalEvent) (registrySize : Nat) : JoystickImpl :=
  let base : JoystickImpl :=
    { m_lastDeviceHandle := some ev.handle
      m_index := registrySize
      m_state := { connected := false } }
  let j1 :=
    if ev.productStringOk then
      let jn := { base with
        m_identification := { base.m_identification with name := ev.productName } }
      match extractVidPid ev.devicePath with
      | some vp =>
        { jn with
          m_identification :=
            { jn.m_identification with vendorId := vp.vid, productId := vp.pid }
          m_useXInput := pathHasIG ev.devicePath }
      | none => jn
    else base
  if j1.m_useXInput then
    { j1 with
      m_caps := { buttonCount := 14, axes := xinputAxesCaps j1.m_caps.axes }
      m_state := { j1.m_state with connected := true } }
  else j1

/-- The placement loop of `dispatchDeviceConnected` (218-233): walk the slots,
incrementing the XInput counter for every slot whose `m_xInputIndex` is not the
sentinel (the current slot included, before the free test), and copy the new
joystick into the first slot whose handle is null. -/
def placeLoop (newJ : JoystickImpl) : List JoystickImpl → Nat → List JoystickImpl
  | [], _ => []
  | j :: rest, cnt =>
    let cnt1 := if j.m_xInputIndex ≠ UNASSIGNED then cnt + 1 else cnt
    if j.m_lastDeviceHandle = none then
      (if newJ.m_useXInput then { newJ with m_xInputIndex := cnt1 } else newJ) :: rest
    else
      j :: placeLoop newJ rest cnt1

/-- `JoystickImpl::dispatchDeviceConnected` (JoystickImpl.cpp 170-239). -/
def dispatchDeviceConnected (registry : List JoystickImpl) (ev : ArrivalEvent) :
    List JoystickImpl :=
  placeLoop (builtJoystick ev registry.length) registry 0

/-- The removal loop of `dispatchDeviceRemoved` (244-253): reset state, handle
and capabilities of the first slot holding the departing handle; note that
`m_xInputIndex`, `m_useXInput`, `m_identification` and `m_index` are not
touched. -/
def removeLoop : List JoystickImpl → Nat → List JoystickImpl
  | [], _ => []
  | j :: rest, h =>
    if j.m_lastDeviceHandle = some h then
      { j with m_state := {}, m_lastDeviceHandle := none, m_caps := {} } :: rest
    else
      j :: removeLoop rest h

/-- `JoystickImpl::dispatchDeviceRemoved` (JoystickImpl.cpp 242-254). -/
def dispatchDeviceRemoved (registry : List JoystickImpl) (handle : Nat) :
    List JoystickImpl :=
  removeLoop registry handle

/-- A slot currently carries an XInput (poll) index, i.e. its `m_xInputIndex`
is not the sentinel — the test the placement loop counts by. -/
def isAssigned (j : JoystickImpl) : Bool :=
  decide (j.m_xInputIndex ≠ UNASSIGNED)

/-- Number of slots of `l` currently carrying an XInput index. -/
def countAssigned (l : List JoystickImpl) : Nat :=
  (l.filter isAssigned).length

/-- The poll indices of the assigned slots of `l`, read left to right, are
exactly `c, c+1, c+2, ...` — the shape the placement counter produces on
arrival-only histories. -/
def pollChain : List JoystickImpl → Nat → Prop
  | [], _ => True
  | j :: rest, c =>
    if j.m_xInputIndex ≠ UNASSIGNED then j.m_xInputIndex = c ∧ pollChain rest (c + 1)
    else pollChain rest c

/-- Invariant of arrival-only histories: an occupied prefix whose assigned
poll indices form the chain 0, 1, 2, ..., followed by fresh free slots, with
the registry small enough that a counter value can never collide with the
sentinel. -/
def RegInv (reg : List JoystickImpl) : Prop :=
  ∃ pre suf, reg = pre ++ suf
    ∧ (∀ j ∈ pre, j.m_lastDeviceHandle ≠ none)
    ∧ (∀ j ∈ suf, j.m_lastDeviceHandle = none ∧ j.m_xInputIndex = UNASSIGNED)
    ∧ pollChain pre 0
    ∧ reg.length < UNASSIGNED

/-- Whether an arrival selects the XInput backend: the product-string query
succeeded, the VID/PID parse succeeded, and the path carries the `IG_` hint
(the conjunction `dispatchDeviceConnected` effectively computes). -/
def arrivalIsXInput (ev : ArrivalEvent) : Bool :=
  ev.productStringOk && (extractVidPid ev.devicePath).isSome && pathHasIG ev.devicePath

/-- A sequence of device-arrived events applied in order. -/
def applyArrivals (evs : List ArrivalEvent) (reg : List JoystickImpl) :
    List JoystickImpl :=
  evs.foldl dispatchDeviceConnected reg

/-! ## ReportDecoder: `dispatchRawInput` (JoystickImpl.cpp 258-468) -/

/-- One `HIDP_BUTTON_CAPS` range (the fields the source reads). -/
structure ButtonCapsRange where
  usagePage : Nat := 0
  usageMin : Nat := 0
  usageMax : Nat := 0

/-- One `HIDP_VALUE_CAPS` range (the fields the source reads). -/
structure ValueCapsRange where
  usagePage : Nat := 0
  usageMin : Nat := 0
  bitSize : Nat := 0
  logicalMin : Int := 0
  logicalMax : Int := 0

/-- Platform inputs of one WM_INPUT event. Each `Ok` flag is the success of the
corresponding fallible query in source order; `getUsages i` is the sparse
pressed-usage list `HidP_GetUsages` writes for button-range `i` (`none` =
failure), `getUsageValue i` the raw value `HidP_GetUsageValue` yields for
value-range `i`. -/
structure RawInputEvent where
  getDataOk : Bool := true
  isHid : Bool := true
  deviceHandle : Nat := 0
  preparsedOk : Bool := true
  getCapsOk : Bool := true
  numberInputValueCaps : Nat := 0
  numberInputButtonCaps : Nat := 0
  getButtonCapsOk : Bool := true
  buttonCaps : List ButtonCapsRange := []
  getUsages : Nat → Option (List Nat) := fun _ => none
  getValueCapsOk : Bool := true
  valueCaps : List ValueCapsRange := []
  getUsageValue : Nat → Option Nat := fun _ => none

/-- The slot-lookup loop of `dispatchRawInput` (291-299): index of the first
slot whose stored handle equals the report's device handle. -/
def findIndexByHandle : List JoystickImpl → Nat → Option Nat
  | [], _ => none
  | j :: rest, h =>
    if j.m_lastDeviceHandle = some h then some 0
    else (findIndexByHandle rest h).map (· + 1)

/-- The axis-capability loop of `dispatchRawInput` (342-344):
`for i in [0, min(AxisCount, NumberInputValueCaps)): caps.axes[getAxis(i)] = true`. -/
def axesCapsUpdate (axes0 : Axis → Bool) (valueCapsCount : Nat) : Axis → Bool :=
  (List.range (min Joystick.AxisCount valueCapsCount)).foldl
    (fun a i => Function.update a (getAxis i) true) axes0

/-- The `buttonCount == 0` branch (383-384): clear the dense array from
`startIdx` to `ButtonCount`; fuel is `ButtonCount - startIdx`. -/
def clearButtonsFrom : Nat → Nat → List Bool → List Bool
  | 0, _, buttons => buttons
  | fuel + 1, buttonIndex, buttons =>
    clearButtonsFrom fuel (buttonIndex + 1) (buttons.set buttonIndex false)

/-- The two-sequence button walk (394-408): walk `buttonIndex` up to
`ButtonCount` with a cursor into the persistent usage buffer; mark true and
advance the cursor when `buffer[cursor] - usageMin == buttonIndex` (the source
computes this as an `int` and casts it to `size_t` for the comparison, so a
negative difference never matches: we compare over `Int`); fuel is
`ButtonCount - buttonIndex`. Note the cursor is not bounded by the number of
usages the current report produced: it walks on into stale buffer content. -/
def mergeLoop (buf : Nat → Nat) (usageMin : Nat) :
    Nat → Nat → Nat → List Bool → List Bool
  | 0, _, _, buttons => buttons
  | fuel + 1, buttonIndex, cursor, buttons =>
    let rawInputButton : Int := (buf cursor : Int) - (usageMin : Int)
    if rawInputButton = (buttonIndex : Int) then
      mergeLoop buf usageMin fuel (buttonIndex + 1) (cursor + 1) (buttons.set buttonIndex true)
    else
      mergeLoop buf usageMin fuel (buttonIndex + 1) cursor (buttons.set buttonIndex false)

/-- Result of the button-range phase: the dense array, the usage buffer, the
accumulated `totalButtonsCount`, and whether a `HidP_GetUsages` failure aborted
the event. -/
structure ButtonPhaseResult where
  buttons : List Bool
  buf : Nat → Nat
  totalButtons : Nat
  aborted : Bool

/-- The per-button-range loop of `dispatchRawInput` (358-412): accumulate the
range size into `totalButtonsCount` first, call `HidP_GetUsages` (failure
aborts), overwrite the start of the persistent usage buffer with the sparse
pressed list, clear or merge the dense array from `startingButtonIndex`, then
advance `startingButtonIndex` by the accumulated total (as the source does). -/
def buttonRangesLoop (ev : RawInputEvent) :
    List (Nat × ButtonCapsRange) → (Nat → Nat) → Nat → Nat → List Bool →
    ButtonPhaseResult
  | [], buf, total, _, buttons => ⟨buttons, buf, total, false⟩
  | (i, r) :: rest, buf, total, startIdx, buttons =>
    let rangeCount := (2 ^ 32 + r.usageMax - r.usageMin + 1) % 2 ^ 32
    let total1 := total + rangeCount
    match ev.getUsages i with
    | none => ⟨buttons, buf, total1, true⟩
    | some usages =>
      let buf1 := fun k => usages.getD k (buf k)
      let buttons1 :=
        if usages.length = 0 then
          clearButtonsFrom (Joystick.ButtonCount - startIdx) startIdx buttons
        else
          mergeLoop buf1 r.usageMin (Joystick.ButtonCount - startIdx) startIdx 0 buttons
      buttonRangesLoop ev rest buf1 total1 (startIdx + total1) buttons1

/-- `expectedMax = (1UL << bitSize) - 1` (444). For `bitSize < 32` this equals
`2 ^ bitSize - 1`; at `bitSize = 32` the source shift is undefined behaviour,
so no claim is made there. -/
def expectedMaxVal (bitSize : Nat) : Nat := 2 ^ bitSize - 1

/-- `expectedMax & static_cast<ULONG>(logicalBound)` (448-449): the `LONG`
bound is reinterpreted as a 32-bit unsigned value and masked. -/
def maskLogical (em : Nat) (v : Int) : Nat :=
  em &&& (v % (2 ^ 32 : Int)).toNat

/-- The per-range axis value computation (441-461): mask the logical bounds,
guard `min == max` (yielding 0), otherwise rescale linearly to [-100, 100].
The source's `float` arithmetic is idealized as `Rat`. -/
def outputValueOf (vc : ValueCapsRange) (rawValue : Nat) : Rat :=
  let em := expectedMaxVal vc.bitSize
  let logicalMax := maskLogical em vc.logicalMax
  let logicalMin := maskLogical em vc.logicalMin
  let minF : Rat := logicalMin
  let maxF : Rat := logicalMax
  if minF ≠ maxF then (-100 : Rat) + ((rawValue : Rat) - minF) * 200 / (maxF - minF)
  else 0

/-- Result of the value-range phase (state and caps of the owning slot so far,
and whether a `HidP_GetUsageValue` failure aborted the event). -/
structure ValuePhaseResult where
  state : JoystickState
  caps : JoystickCaps
  aborted : Bool

/-- The per-value-range loop of `dispatchRawInput` (423-466): for each range
index, read the raw usage value (failure aborts, keeping mutations applied so
far), then assign the rescaled value to `axes[getAxis(i)]`, store
`totalButtonsCount` into `caps.buttonCount`, and set `connected = true`. -/
def valueRangesLoop (ev : RawInputEvent) (totalButtons : Nat) :
    List Nat → JoystickState → JoystickCaps → ValuePhaseResult
  | [], st, caps => ⟨st, caps, false⟩
  | i :: rest, st, caps =>
    match ev.getUsageValue i with
    | none => ⟨st, caps, true⟩
    | some rawValue =>
      let out := outputValueOf (ev.valueCaps.getD i {}) rawValue
      let st1 := { st with axes := Function.update st.axes (getAxis i) out, connected := true }
      let caps1 := { caps with buttonCount := totalButtons }
      valueRangesLoop ev totalButtons rest st1 caps1

/-- The decode body of `dispatchRawInput` once the owning report-backed slot is
found (312-466): `none` models the early returns that happen before any slot
mutation (preparsed-data fetch, `HidP_GetCaps`); afterwards every abort path
returns the slot as mutated so far, exactly as the in-place source does. -/
def decodeSlot (j : JoystickImpl) (buf : Nat → Nat) (ev : RawInputEvent) :
    Option (JoystickImpl × (Nat → Nat)) :=
  if ¬ ev.preparsedOk then none
  else if ¬ ev.getCapsOk then none
  else
    let j1 := { j with
      m_caps := { j.m_caps with
        axes := axesCapsUpdate j.m_caps.axes ev.numberInputValueCaps } }
    if ¬ ev.getButtonCapsOk then some (j1, buf)
    else
      let bres := buttonRangesLoop ev
        ((ev.buttonCaps.take ev.numberInputButtonCaps).enum) buf 0 0 j1.m_state.buttons
      let j2 := { j1 with m_state := { j1.m_state with buttons := bres.buttons } }
      if bres.aborted then some (j2, bres.buf)
      else if ¬ ev.getValueCapsOk then some (j2, bres.buf)
      else
        let vres := valueRangesLoop ev bres.totalButtons
          (List.range (min ev.numberInputValueCaps Joystick.AxisCount))
          j2.m_state j2.m_caps
        some ({ j2 with m_state := vres.state, m_caps := vres.caps }, bres.buf)

/-- `JoystickImpl::dispatchRawInput` (JoystickImpl.cpp 258-468): handle one
WM_INPUT event, returning the registry and the persistent usage buffer. The
early returns (`GetRawInputData` failure, non-HID event, unknown handle,
XInput-owned slot) leave both unchanged. -/
def dispatchRawInput (registry : List JoystickImpl) (buf : Nat → Nat)
    (ev : RawInputEvent) : List JoystickImpl × (Nat → Nat) :=
  if ¬ ev.getDataOk then (registry, buf)
  else if ¬ ev.isHid then (registry, buf)
  else
    match findIndexByHandle registry ev.deviceHandle with
    | none => (registry, buf)
    | some idx =>
      if (registry.getD idx {}).m_useXInput then (registry, buf)
      else
        match decodeSlot (registry.getD idx {}) buf ev with
        | none => (registry, buf)
        | some (j1, buf1) => (registry.set idx j1, buf1)

/-! ## PollBackendSync: `dispatchXInput` (JoystickImpl.cpp 471-543) -/

def XINPUT_GAMEPAD_DPAD_UP : Nat := 0x0001

def XINPUT_GAMEPAD_DPAD_DOWN : Nat := 0x0002

def XINPUT_GAMEPAD_DPAD_LEFT : Nat := 0x0004

def XINPUT_GAMEPAD_DPAD_RIGHT : Nat := 0x0008

def XINPUT_GAMEPAD_START : Nat := 0x0010

def XINPUT_GAMEPAD_BACK : Nat := 0x0020

def XINPUT_GAMEPAD_LEFT_THUMB : Nat := 0x0040

def XINPUT_GAMEPAD_RIGHT_THUMB : Nat := 0x0080

def XINPUT_GAMEPAD_LEFT_SHOULDER : Nat := 0x0100

def XINPUT_GAMEPAD_RIGHT_SHOULDER : Nat := 0x0200

def XINPUT_GAMEPAD_A : Nat := 0x1000

def XINPUT_GAMEPAD_B : Nat := 0x2000

def XINPUT_GAMEPAD_X : Nat := 0x4000

def XINPUT_GAMEPAD_Y : Nat := 0x8000

def XINPUT_GAMEPAD_LEFT_THUMB_DEADZONE : Nat := 7849

/-- `const SHORT deadzone = XINPUT_GAMEPAD_LEFT_THUMB_DEADZONE / 4` (510):
integer division, 7849 / 4 = 1962. -/
def deadzoneVal : Int := (XINPUT_GAMEPAD_LEFT_THUMB_DEADZONE : Int) / 4

/-- `constexpr auto thumbstickScaleFactor = 327.670f` (513), idealized. -/
def thumbstickScaleFactor : Rat := 32767 / 100

/-- `constexpr auto triggerScaleFactor = 2.55f` (529), idealized. -/
def triggerScaleFactor : Rat := 255 / 100

/-- One thumbstick axis (515-526): zero below the deadzone, otherwise the raw
signed value divided by 327.67. -/
def stickAxisValue (raw : Int) : Rat :=
  if |raw| < deadzoneVal then 0 else (raw : Rat) / thumbstickScaleFactor

/-- `XINPUT_GAMEPAD` (the fields the source reads); `SHORT` thumb values are
`Int` in [-32768, 32767], `BYTE` triggers `Nat` in [0, 255]. -/
structure XInputGamepad where
  wButtons : Nat := 0
  bLeftTrigger : Nat := 0
  bRightTrigger : Nat := 0
  sThumbLX : Int := 0
  sThumbLY : Int := 0
  sThumbRX : Int := 0
  sThumbRY : Int := 0

/-- `XINPUT_STATE`. -/
structure XInputState where
  dwPacketNumber : Nat := 0
  Gamepad : XInputGamepad := {}

/-- The fourteen fixed button masks in the order the source assigns
`state.buttons[0] .. state.buttons[13]` (495-508). -/
def xinputButtonMasks : List Nat :=
  [XINPUT_GAMEPAD_A, XINPUT_GAMEPAD_B, XINPUT_GAMEPAD_X, XINPUT_GAMEPAD_Y,
   XINPUT_GAMEPAD_DPAD_UP, XINPUT_GAMEPAD_DPAD_DOWN, XINPUT_GAMEPAD_DPAD_LEFT,
   XINPUT_GAMEPAD_DPAD_RIGHT, XINPUT_GAMEPAD_START, XINPUT_GAMEPAD_BACK,
   XINPUT_GAMEPAD_LEFT_SHOULDER, XINPUT_GAMEPAD_RIGHT_SHOULDER,
   XINPUT_GAMEPAD_LEFT_THUMB, XINPUT_GAMEPAD_RIGHT_THUMB]

/-- The fourteen `state.buttons[k] = !!(wButtons & mask)` assignments. -/
def setXInputButtons (w : Nat) (buttons : List Bool) : List Bool :=
  xinputButtonMasks.enum.foldl (fun bs p => bs.set p.1 (decide (w &&& p.2 ≠ 0))) buttons

/-- The recompute branch of `dispatchXInput` (489-531): store the new packet
number, map the fixed 14-button layout, apply deadzone and scale to the four
stick axes, scale the two triggers. -/
def recomputeFromGamepad (j : JoystickImpl) (xs : XInputState) : JoystickImpl :=
  let g := xs.Gamepad
  let axes1 :=
    Function.update (Function.update (Function.update (Function.update
      (Function.update (Function.update j.m_state.axes
        Axis.X (stickAxisValue g.sThumbLX))
        Axis.Y (stickAxisValue g.sThumbLY))
        Axis.Z (stickAxisValue g.sThumbRX))
        Axis.R (stickAxisValue g.sThumbRY))
        Axis.U ((g.bLeftTrigger : Rat) / triggerScaleFactor))
        Axis.V ((g.bRightTrigger : Rat) / triggerScaleFactor)
  { j with
    m_xInputPacketNumber := xs.dwPacketNumber
    m_state := { j.m_state with
      buttons := setXInputButtons g.wButtons j.m_state.buttons
      axes := axes1 } }

/-- The sequence comparison of `dispatchXInput` (489-536): recompute only when
the snapshot's packet number differs from the stored one. -/
def updateFromXInput (j : JoystickImpl) (xs : XInputState) : JoystickImpl :=
  if j.m_xInputPacketNumber ≠ xs.dwPacketNumber then recomputeFromGamepad j xs else j

/-- The inner loop of `dispatchXInput` (485-541): update the first slot whose
`m_xInputIndex` equals the polled index, then break. -/
def applySnapshotToSlots : List JoystickImpl → Nat → XInputState → List JoystickImpl
  | [], _, _ => []
  | j :: rest, k, xs =>
    if j.m_xInputIndex = k then updateFromXInput j xs :: rest
    else j :: applySnapshotToSlots rest k xs

/-- `JoystickImpl::dispatchXInput` (JoystickImpl.cpp 471-543): poll indices
0-3; `snaps k` is `XInputGetState(k)`'s result (`none` models a nonzero return,
i.e. no controller at that index, which the source skips). -/
def dispatchXInput (registry : List JoystickImpl) (snaps : Nat → Option XInputState) :
    List JoystickImpl :=
  ([0, 1, 2, 3] : List Nat).foldl
    (fun reg k =>
      match snaps k with
      | none => reg
      | some xs => applySnapshotToSlots reg k xs)
    registry

/-- One fold step of `dispatchXInput` (the body of the outer poll-index loop),
factored out for reasoning. -/
def xinputStep (snaps : Nat → Option XInputState) (k : Nat) (reg : List JoystickImpl) :
    List JoystickImpl :=
  match snaps k with
  | none => reg
  | some xs => applySnapshotToSlots reg k xs

/-! ## Concrete scenario inputs used by the claim witnesses and
counterexamples -/

/-- A registry whose slot 0 holds a report-backed device with token 7. -/
def demoReg : List JoystickImpl :=
  { m_lastDeviceHandle := some 7 } :: List.replicate 7 ({} : JoystickImpl)

/-- A single 16-button range with usage page 9 and usages 1..16. -/
def demoRange : ButtonCapsRange := { usagePage := 9, usageMin := 1, usageMax := 16 }

/-- A well-formed button report for token 7 whose pressed usages are `us`. -/
def demoButtonEv (us : List Nat) : RawInputEvent :=
  { deviceHandle := 7, numberInputValueCaps := 0, numberInputButtonCaps := 1,
    buttonCaps := [demoRange], getUsages := fun _ => some us,
    valueCaps := [], getUsageValue := fun _ => none }

/-- First report: usages 3 and 6 pressed (buttons 2 and 5). -/
def demoAfterFirst : List JoystickImpl × (Nat → Nat) :=
  dispatchRawInput demoReg (fun _ => 0) (demoButtonEv [3, 6])

/-- Second report: only usage 3 pressed (button 2 alone). -/
def demoAfterSecond : List JoystickImpl × (Nat → Nat) :=
  dispatchRawInput demoAfterFirst.1 demoAfterFirst.2 (demoButtonEv [3])

/-- A report event for token 7 that fails at the `HidP_GetUsages` query while
declaring one value range. -/
def demoUsagesFailEv : RawInputEvent :=
  { deviceHandle := 7, numberInputValueCaps := 1, numberInputButtonCaps := 1,
    buttonCaps := [demoRange], getUsages := fun _ => none }

/-- An arrival whose product-string query failed (identity left defaulted). -/
def demoPlainArrival : ArrivalEvent := { handle := 7, productStringOk := false }

/-- A device path carrying valid VID/PID markers and the XInput hint. -/
def demoXInputPath : List Char := "VID_045EPID_028EIG_00".toList

/-- An XInput arrival with token `h`. -/
def demoXInputArrival (h : Nat) : ArrivalEvent :=
  { handle := h, productStringOk := true, productName := "pad", devicePath := demoXInputPath }

/-- Arrive tokens 1 and 2 (poll indices 0 and 1), remove token 1, then arrive
token 3: the freed slot 0 still carries its stale poll index, so the counter
assigns the newcomer poll index 1, colliding with slot 1. -/
def demoDupPollReg : List JoystickImpl :=
  dispatchDeviceConnected
    (dispatchDeviceRemoved
      (dispatchDeviceConnected
        (dispatchDeviceConnected initialRegistry (demoXInputArrival 1))
        (demoXInputArrival 2))
      1)
    (demoXInputArrival 3)

/-- A device path whose four characters after `VID_` are not all hexadecimal
(a leading `+`), which the claim says must fail. -/
def demoLaxPath : List Char := "VID_+111PID_0222".toList

/-- The 10-bit value range of the spec's rescale example. -/
def demoValueRange : ValueCapsRange := { bitSize := 10, logicalMin := 0, logicalMax := 1023 }

/-- A report event for token 7 carrying one 10-bit value range whose raw
reading is `raw`, and no button ranges. -/
def demoValueEv (raw : Nat) : RawInputEvent :=
  { deviceHandle := 7, numberInputValueCaps := 1, numberInputButtonCaps := 0,
    buttonCaps := [], getUsages := fun _ => none,
    valueCaps := [demoValueRange], getUsageValue := fun _ => some raw }

/-- A fully occupied 8-slot registry (tokens 1..8). -/
def demoFullReg : List JoystickImpl :=
  (List.range Joystick.Count).map fun i =>
    { m_index := i, m_lastDeviceHandle := some (i + 1) }

/-- A poll-backed slot at poll index 0 with stored packet number 5. -/
def demoPollSlot : JoystickImpl :=
  { m_useXInput := true, m_xInputIndex := 0, m_xInputPacketNumber := 5,
    m_lastDeviceHandle := some 9 }

/-- A snapshot with packet number 6 and some activity. -/
def demoSnap : XInputState :=
  { dwPacketNumber := 6,
    Gamepad := { wButtons := XINPUT_GAMEPAD_A, sThumbLX := 32767, bLeftTrigger := 255 } }

/-! ## Claim theorems -/

/-- C1: the two-pointer merge does not bound its cursor by the number of
usages the current report produced, so it walks into stale buffer content
left by the previous report. Evaluating the embedded dispatch on two
consecutive reports over a 16-button range with usageMin 1 — first report
presses usages 3 and 6, second report presses usage 3 only, so its
usageMin-offset sparse active list is exactly the singleton 2 — shows button 5
still resolved to true after the second report, although 5 is not in that
report's sparse active list, contradicting the claim (and the source's own
comment block) that the dense array is true exactly at the sparse indices. -/
theorem c1_stale_merge_eval :
    ((demoAfterSecond.1.getD 0 default).m_state.buttons.getD 5 false = true)
    ∧ ((demoAfterSecond.1.getD 0 default).m_state.buttons.getD 2 false = true)
    ∧ (((demoButtonEv [3]).getUsages 0) = some [3])
    ∧ ([3].map (fun u => u - demoRange.usageMin) = [2]) := by
  refine ⟨by decide, by decide, rfl, by decide⟩

/-- C4: an arrival into the fresh registry overwrites the populated slot's
index with `joysticks.size()` (= 8), not its position: after the first arrival
slot 0 carries index 8, although it carried its creation-assigned index 0
before, contradicting the claim that the index field is never changed. -/
theorem c4_index_overwritten_eval :
    ((dispatchDeviceConnected initialRegistry demoPlainArrival).getD 0 default).m_index
        = Joystick.Count
    ∧ (initialRegistry.getD 0 default).m_index = 0
    ∧ Joystick.Count ≠ 0 := by
  refine ⟨by decide, by decide, by decide⟩

/-- C5 counterexample: after arrivals of poll-backed tokens 1 and 2 (poll
indices 0 and 1), departure of token 1, and arrival of poll-backed token 3,
slots 0 and 1 are both currently poll-backed and both hold poll index 1 —
departure does not clear `m_xInputIndex`, and the assignment counter counts
the target slot's stale index — so the pairwise-distinctness claim fails
after a non-sequential departure and re-arrival. -/
theorem c5_duplicate_poll_index_counterexample :
    ((demoDupPollReg.getD 0 default).m_xInputIndex = 1)
    ∧ ((demoDupPollReg.getD 1 default).m_xInputIndex = 1)
    ∧ ((demoDupPollReg.getD 0 default).m_useXInput = true)
    ∧ ((demoDupPollReg.getD 1 default).m_useXInput = true)
    ∧ ((demoDupPollReg.getD 0 default).m_lastDeviceHandle.isSome = true)
    ∧ ((demoDupPollReg.getD 1 default).m_lastDeviceHandle.isSome = true) := by
  refine ⟨by decide, by decide, by decide, by decide, by decide, by decide⟩

/-- C6 counterexample: on the path `VID_+111PID_0222` the four characters
following the `VID_` marker are `+111`, which are not four valid hexadecimal
characters, yet identity resolution succeeds with vid 0x111 and pid 0x222,
because the source parses with `wcstoul`, which tolerates a leading sign —
contradicting the claim that non-hexadecimal follower characters yield a
parse failure. -/
theorem c6_wcstoul_laxity_counterexample :
    extractVidPid demoLaxPath = some { vid := 273, pid := 546 }
    ∧ (demoLaxPath.drop 4).take 4 = ['+', '1', '1', '1']
    ∧ hexVal '+' = none := by
  refine ⟨by decide, by decide, by decide⟩

/-- C8 counterexample: the raw thumbstick reading is a signed 16-bit value,
so -32768 is attainable; its magnitude exceeds the deadzone, and the scaled
result -32768 / 327.67 is strictly below -100, so the claim that stick axes
always land in [-100, 100] fails at this input. -/
theorem c8_extreme_thumb_counterexample :
    stickAxisValue (-32768) < -100
    ∧ ¬ |(-32768 : Int)| < deadzoneVal
    ∧ (-32768 : Int) = -(2 ^ 15) := by
  have h : ¬ |(-32768 : Int)| < deadzoneVal := by decide
  refine ⟨?_, h, by decide⟩
  rw [stickAxisValue, if_neg h, thumbstickScaleFactor]
  norm_num

theorem placeLoop_all_occupied (newJ : JoystickImpl) :
    ∀ (l : List JoystickImpl) (c : Nat),
      (∀ j ∈ l, j.m_lastDeviceHandle ≠ none) → placeLoop newJ l c = l := by
  intro l
  induction l with
  | nil => intro c _; rfl
  | cons j rest ih =>
    intro c hocc
    have hj : j.m_lastDeviceHandle ≠ none := hocc j (List.mem_cons_self j rest)
    have hrest : ∀ x ∈ rest, x.m_lastDeviceHandle ≠ none :=
      fun x hx => hocc x (List.mem_cons_of_mem j hx)
    unfold placeLoop
    rw [if_neg hj]
    rw [ih _ hrest]

/-- C9: a device-arrived event delivered while every slot holds a device token
leaves the registry entirely unchanged: the placement loop finds no free slot
and writes nothing, so the arriving device stays untracked and no query can
observe it. -/
theorem c9_full_registry_drops_arrival (registry : List JoystickImpl)
    (ev : ArrivalEvent)
    (hfull : ∀ j ∈ registry, j.m_lastDeviceHandle ≠ none) :
    dispatchDeviceConnected registry ev = registry :=
  placeLoop_all_occupied _ registry 0 hfull

/-- C9 witness: a ninth arrival into the fully occupied 8-slot registry leaves
it unchanged. -/
theorem c9_full_registry_drops_arrival_witness :
    dispatchDeviceConnected demoFullReg (demoXInputArrival 9) = demoFullReg :=
  c9_full_registry_drops_arrival demoFullReg (demoXInputArrival 9) (by decide)

theorem dispatchRawInput_shape (registry : List JoystickImpl) (buf : Nat → Nat)
    (ev : RawInputEvent) :
    dispatchRawInput registry buf ev = (registry, buf) ∨
    ∃ idx j1 buf1, findIndexByHandle registry ev.deviceHandle = some idx ∧
      dispatchRawInput registry buf ev = (registry.set idx j1, buf1) := by
  unfold dispatchRawInput
  by_cases h1 : ¬ ev.getDataOk
  · rw [if_pos h1]; exact Or.inl rfl
  rw [if_neg h1]
  by_cases h2 : ¬ ev.isHid
  · rw [if_pos h2]; exact Or.inl rfl
  rw [if_neg h2]
  cases hf : findIndexByHandle registry ev.deviceHandle with
  | none => exact Or.inl rfl
  | some idx =>
    dsimp only
    by_cases hx : (registry.getD idx {}).m_useXInput
    · rw [if_pos hx]; exact Or.inl rfl
    rw [if_neg hx]
    cases hd : decodeSlot (registry.getD idx {}) buf ev with
    | none => exact Or.inl rfl
    | some p => exact Or.inr ⟨idx, p.1, p.2, rfl, rfl⟩

/-- C10: a raw-report event whose handle matches no slot, or whose owning slot
is poll-backed (XInput), leaves the registry and the usage buffer entirely
unchanged; and in every case report decoding writes at most the single slot
that owns the report's device handle — every other slot is untouched. -/
theorem c10_raw_input_frame (registry : List JoystickImpl) (buf : Nat → Nat)
    (ev : RawInputEvent) :
    (findIndexByHandle registry ev.deviceHandle = none →
      dispatchRawInput registry buf ev = (registry, buf))
    ∧ (∀ idx, findIndexByHandle registry ev.deviceHandle = some idx →
        (registry.getD idx {}).m_useXInput = true →
        dispatchRawInput registry buf ev = (registry, buf))
    ∧ (∀ idx p, findIndexByHandle registry ev.deviceHandle = some idx → p ≠ idx →
        (dispatchRawInput registry buf ev).1.get? p = registry.get? p) := by
  refine ⟨?_, ?_, ?_⟩
  · intro h
    unfold dispatchRawInput
    rw [h]
    split
    · rfl
    · split
      · rfl
      · rfl
  · intro idx h hx
    unfold dispatchRawInput
    rw [h]
    split
    · rfl
    · split
      · rfl
      · simp only [hx, if_true]
  · intro idx p h hp
    rcases dispatchRawInput_shape registry buf ev with heq | ⟨idx1, j1, buf1, hf1, heq⟩
    · rw [heq]
    · rw [hf1] at h
      injection h with h
      subst h
      rw [heq]
      simp only [List.get?_eq_getElem?]
      exact List.getElem?_set_ne (fun hcon => hp hcon.symm)

/-- C10 witness: a report whose handle matches no slot of the fresh registry
leaves everything unchanged. -/
theorem c10_raw_input_frame_witness :
    dispatchRawInput initialRegistry (fun _ => 0) (demoButtonEv [3]) =
      (initialRegistry, fun _ => 0) :=
  (c10_raw_input_frame initialRegistry (fun _ => 0) (demoButtonEv [3])).1 (by decide)

theorem getAxis_inj_below_eight {i j : Nat} (hi : i < 8) (hj : j < 8)
    (h : getAxis i = getAxis j) : i = j := by
  interval_cases i <;> interval_cases j <;> first | rfl | exact absurd h (by decide)

theorem valueRangesLoop_axes (ev : RawInputEvent) (tb : Nat) :
    ∀ (l : List Nat) (st : JoystickState) (caps : JoystickCaps),
      l.Nodup → (∀ k ∈ l, k < Joystick.AxisCount) →
      (∀ k ∈ l, (ev.getUsageValue k).isSome) →
      ∀ i, i < Joystick.AxisCount →
        (valueRangesLoop ev tb l st caps).state.axes (getAxis i) =
          if i ∈ l then outputValueOf (ev.valueCaps.getD i {}) ((ev.getUsageValue i).getD 0)
          else st.axes (getAxis i) := by
  intro l
  induction l with
  | nil =>
    intro st caps _ _ _ i _
    rw [if_neg (List.not_mem_nil i)]
    rfl
  | cons k l' ih =>
    intro st caps hnd hlt hok i hi
    have hk : (ev.getUsageValue k).isSome := hok k (List.mem_cons_self k l')
    obtain ⟨v, hv⟩ := Option.isSome_iff_exists.mp hk
    have hkd : (ev.getUsageValue k).getD 0 = v := by rw [hv]; rfl
    have hklt : k < Joystick.AxisCount := hlt k (List.mem_cons_self k l')
    have hstep :
        valueRangesLoop ev tb (k :: l') st caps =
          valueRangesLoop ev tb l'
            { st with
              axes := Function.update st.axes (getAxis k)
                (outputValueOf (ev.valueCaps.getD k {}) v)
              connected := true }
            { caps with buttonCount := tb } := by
      show (match ev.getUsageValue k with
        | none => ({ state := st, caps := caps, aborted := true } : ValuePhaseResult)
        | some rawValue =>
          valueRangesLoop ev tb l'
            { st with
              axes := Function.update st.axes (getAxis k)
                (outputValueOf (ev.valueCaps.getD k {}) rawValue)
              connected := true }
            { caps with buttonCount := tb }) = _
      rw [hv]
    rw [hstep]
    rw [ih _ _ hnd.of_cons (fun x hx => hlt x (List.mem_cons_of_mem k hx))
      (fun x hx => hok x (List.mem_cons_of_mem k hx)) i hi]
    by_cases hil : i ∈ l'
    · rw [if_pos hil, if_pos (List.mem_cons_of_mem k hil)]
    · rw [if_neg hil]
      by_cases hik : i = k
      · subst hik
        rw [if_pos (List.mem_cons_self i l')]
        show Function.update st.axes (getAxis i) _ (getAxis i) = _
        rw [Function.update_same, hkd]
      · have : ¬ i ∈ k :: l' := by
          intro hmem
          rcases List.mem_cons.mp hmem with h | h
          · exact hik h
          · exact hil h
        rw [if_neg this]
        show Function.update st.axes (getAxis k) _ (getAxis i) = st.axes (getAxis i)
        exact Function.update_noteq
          (fun hcon => hik (getAxis_inj_below_eight hi hklt hcon)) _ _

theorem outputValueOf_masked_split (vc : ValueCapsRange) (raw : Nat) :
    outputValueOf vc raw =
      if maskLogical (expectedMaxVal vc.bitSize) vc.logicalMin
          = maskLogical (expectedMaxVal vc.bitSize) vc.logicalMax
      then 0
      else (-100 : Rat) +
        ((raw : Rat) - (maskLogical (expectedMaxVal vc.bitSize) vc.logicalMin : Rat)) * 200 /
          ((maskLogical (expectedMaxVal vc.bitSize) vc.logicalMax : Rat) -
            (maskLogical (expectedMaxVal vc.bitSize) vc.logicalMin : Rat)) := by
  unfold outputValueOf
  rcases eq_or_ne (maskLogical (expectedMaxVal vc.bitSize) vc.logicalMin)
      (maskLogical (expectedMaxVal vc.bitSize) vc.logicalMax) with h | h
  · rw [if_pos h, if_neg]
    simp [h]
  · rw [if_neg h, if_pos]
    exact fun hcon => h (Nat.cast_injective hcon)

theorem demoValueRange_mask_min :
    maskLogical (expectedMaxVal demoValueRange.bitSize) demoValueRange.logicalMin = 0 := by
  decide

theorem demoValueRange_mask_max :
    maskLogical (expectedMaxVal demoValueRange.bitSize) demoValueRange.logicalMax = 1023 := by
  decide

theorem outputValueOf_demo (raw : Nat) :
    outputValueOf demoValueRange raw = -100 + (raw : Rat) * 200 / 1023 := by
  rw [outputValueOf_masked_split, demoValueRange_mask_min, demoValueRange_mask_max]
  norm_num

/-- C2: for every value-range index i below min(8, valueRangeCount), when no
usage-value query fails, the value the loop assigns to `AxisId(ordinal i)` is 0
when the bit-size-masked logical bounds coincide and otherwise equals
-100 + (raw - logicalMin) * 200 / (logicalMax - logicalMin); in particular with
bitSize 10, logicalMin 0, logicalMax 1023: raw 0 gives -100, raw 1023 gives
100, and raw 511 or 512 give 0 within 0.1; and a range with equal masked
bounds yields 0 for any raw value. Float arithmetic is idealized as `Rat`. -/
theorem c2_value_rescale (ev : RawInputEvent) (tb : Nat) (st : JoystickState)
    (caps : JoystickCaps) (i : Nat)
    (hi : i < min ev.numberInputValueCaps Joystick.AxisCount)
    (hok : ∀ k, k < min ev.numberInputValueCaps Joystick.AxisCount →
      (ev.getUsageValue k).isSome) :
    ((valueRangesLoop ev tb
        (List.range (min ev.numberInputValueCaps Joystick.AxisCount)) st caps).state.axes
          (getAxis i) =
      if maskLogical (expectedMaxVal (ev.valueCaps.getD i {}).bitSize)
            (ev.valueCaps.getD i {}).logicalMin
          = maskLogical (expectedMaxVal (ev.valueCaps.getD i {}).bitSize)
            (ev.valueCaps.getD i {}).logicalMax
      then 0
      else (-100 : Rat) +
        (((ev.getUsageValue i).getD 0 : Rat) -
            (maskLogical (expectedMaxVal (ev.valueCaps.getD i {}).bitSize)
              (ev.valueCaps.getD i {}).logicalMin : Rat)) * 200 /
          ((maskLogical (expectedMaxVal (ev.valueCaps.getD i {}).bitSize)
              (ev.valueCaps.getD i {}).logicalMax : Rat) -
            (maskLogical (expectedMaxVal (ev.valueCaps.getD i {}).bitSize)
              (ev.valueCaps.getD i {}).logicalMin : Rat)))
    ∧ outputValueOf demoValueRange 0 = -100
    ∧ outputValueOf demoValueRange 1023 = 100
    ∧ |outputValueOf demoValueRange 511| < 1 / 10
    ∧ |outputValueOf demoValueRange 512| < 1 / 10
    ∧ (∀ (vc : ValueCapsRange) (raw : Nat),
        maskLogical (expectedMaxVal vc.bitSize) vc.logicalMin
          = maskLogical (expectedMaxVal vc.bitSize) vc.logicalMax →
        outputValueOf vc raw = 0) := by
  refine ⟨?_, ?_, ?_, ?_, ?_, ?_⟩
  · have hmem : i ∈ List.range (min ev.numberInputValueCaps Joystick.AxisCount) :=
      List.mem_range.mpr hi
    rw [valueRangesLoop_axes ev tb _ st caps (List.nodup_range _)
      (fun k hk => lt_of_lt_of_le (List.mem_range.mp hk) (min_le_right _ _))
      (fun k hk => hok k (List.mem_range.mp hk))
      i (lt_of_lt_of_le hi (min_le_right _ _))]
    rw [if_pos hmem]
    exact outputValueOf_masked_split _ _
  · rw [outputValueOf_demo]; norm_num
  · rw [outputValueOf_demo]; norm_num
  · rw [outputValueOf_demo]
    rw [abs_lt]
    constructor <;> norm_num
  · rw [outputValueOf_demo]
    rw [abs_lt]
    constructor <;> norm_num
  · intro vc raw h
    rw [outputValueOf_masked_split, if_pos h]

/-- C2 witness: a concrete event with one 10-bit value range reading raw 0
assigns -100 to axis X. -/
theorem c2_value_rescale_witness :
    (valueRangesLoop (demoValueEv 0) 0
        (List.range (min (demoValueEv 0).numberInputValueCaps Joystick.AxisCount))
        ({} : JoystickState) ({} : JoystickCaps)).state.axes (getAxis 0) = -100 := by
  have h := (c2_value_rescale (demoValueEv 0) 0 {} {} 0 (by decide)
    (fun k hk => by
      have : k < 1 := lt_of_lt_of_le hk (by decide)
      interval_cases k
      · decide)).1
  have hvc : (demoValueEv 0).valueCaps.getD 0 {} = demoValueRange := rfl
  have hraw : ((demoValueEv 0).getUsageValue 0).getD 0 = 0 := rfl
  rw [h, hvc, hraw, demoValueRange_mask_min, demoValueRange_mask_max]
  rw [if_neg (by norm_num)]
  norm_num

theorem buttonRangesLoop_fail_head (ev : RawInputEvent) (i : Nat) (r : ButtonCapsRange)
    (rest : List (Nat × ButtonCapsRange)) (buf : Nat → Nat) (total startIdx : Nat)
    (bs : List Bool) (hu : ev.getUsages i = none) :
    buttonRangesLoop ev ((i, r) :: rest) buf total startIdx bs =
      { buttons := bs, buf := buf,
        totalButtons := total + (2 ^ 32 + r.usageMax - r.usageMin + 1) % 2 ^ 32,
        aborted := true } := by
  unfold buttonRangesLoop
  rw [hu]

theorem dispatchRawInput_found (registry : List JoystickImpl) (buf : Nat → Nat)
    (ev : RawInputEvent) (idx : Nat)
    (hdata : ev.getDataOk = true) (hhid : ev.isHid = true)
    (hfind : findIndexByHandle registry ev.deviceHandle = some idx)
    (hx : (registry.getD idx {}).m_useXInput = false) :
    dispatchRawInput registry buf ev =
      match decodeSlot (registry.getD idx {}) buf ev with
      | none => (registry, buf)
      | some (j1, buf1) => (registry.set idx j1, buf1) := by
  unfold dispatchRawInput
  rw [if_neg (fun hcon => hcon hdata), if_neg (fun hcon => hcon hhid), hfind]
  dsimp only
  rw [hx, if_neg (by decide)]

/-- C3 counterexample: a raw-report event that fails at the `HidP_GetUsages`
(usages) query — one of the fetch-failure points named by the claim — does
abort the event, yet the owning slot's axis-capability flags were already
mutated before the failing query: axis X's capability flag flips from false to
true, so the slot's previous capabilities are not retained unchanged. -/
theorem c3_partial_mutation_counterexample :
    demoUsagesFailEv.getUsages 0 = none
    ∧ ((dispatchRawInput demoReg (fun _ => 0) demoUsagesFailEv).1.getD 0 default).m_caps.axes
        Axis.X = true
    ∧ (demoReg.getD 0 default).m_caps.axes Axis.X = false := by
  refine ⟨rfl, by decide, by decide⟩

theorem buttonRangesLoop_cons_some (ev : RawInputEvent) {i : Nat} {r : ButtonCapsRange}
    {us : List Nat} (rest : List (Nat × ButtonCapsRange)) (buf : Nat → Nat)
    (total startIdx : Nat) (bs : List Bool) (hu : ev.getUsages i = some us) :
    buttonRangesLoop ev ((i, r) :: rest) buf total startIdx bs =
      buttonRangesLoop ev rest (fun k => us.getD k (buf k))
        (total + (2 ^ 32 + r.usageMax - r.usageMin + 1) % 2 ^ 32)
        (startIdx + (total + (2 ^ 32 + r.usageMax - r.usageMin + 1) % 2 ^ 32))
        (if us.length = 0 then
          clearButtonsFrom (Joystick.ButtonCount - startIdx) startIdx bs
        else
          mergeLoop (fun k => us.getD k (buf k)) r.usageMin
            (Joystick.ButtonCount - startIdx) startIdx 0 bs) := by
  simp only [buttonRangesLoop]
  rw [hu]

theorem buttonRangesLoop_abort_split (ev : RawInputEvent) :
    ∀ (l1 : List (Nat × ButtonCapsRange)) (i : Nat) (r : ButtonCapsRange)
      (l2 : List (Nat × ButtonCapsRange)) (buf : Nat → Nat) (total startIdx : Nat)
      (bs : List Bool),
      (∀ p ∈ l1, (ev.getUsages p.1).isSome) → ev.getUsages i = none →
      buttonRangesLoop ev (l1 ++ (i, r) :: l2) buf total startIdx bs =
        { buttons := (buttonRangesLoop ev l1 buf total startIdx bs).buttons,
          buf := (buttonRangesLoop ev l1 buf total startIdx bs).buf,
          totalButtons := (buttonRangesLoop ev l1 buf total startIdx bs).totalButtons +
            (2 ^ 32 + r.usageMax - r.usageMin + 1) % 2 ^ 32,
          aborted := true } := by
  intro l1
  induction l1 with
  | nil =>
    intro i r l2 buf total startIdx bs _ hu
    rw [List.nil_append, buttonRangesLoop_fail_head ev i r l2 buf total startIdx bs hu]
    rfl
  | cons p l1' ih =>
    intro i r l2 buf total startIdx bs hall hu
    rcases p with ⟨pi, pr⟩
    obtain ⟨us, hus⟩ :=
      Option.isSome_iff_exists.mp (hall (pi, pr) (List.mem_cons_self (pi, pr) l1'))
    rw [List.cons_append]
    rw [buttonRangesLoop_cons_some ev (l1' ++ (i, r) :: l2) buf total startIdx bs hus]
    rw [buttonRangesLoop_cons_some ev l1' buf total startIdx bs hus]
    exact ih i r l2 _ _ _ _
      (fun x hx => hall x (List.mem_cons_of_mem (pi, pr) hx)) hu

theorem valueRangesLoop_fail_head (ev : RawInputEvent) (tb : Nat) {k : Nat}
    (l2 : List Nat) (st : JoystickState) (caps : JoystickCaps)
    (hk : ev.getUsageValue k = none) :
    valueRangesLoop ev tb (k :: l2) st caps =
      { state := st, caps := caps, aborted := true } := by
  simp only [valueRangesLoop]
  rw [hk]

theorem valueRangesLoop_cons_some (ev : RawInputEvent) (tb : Nat) {i v : Nat}
    (l : List Nat) (st : JoystickState) (caps : JoystickCaps)
    (hv : ev.getUsageValue i = some v) :
    valueRangesLoop ev tb (i :: l) st caps =
      valueRangesLoop ev tb l
        { st with
          axes := Function.update st.axes (getAxis i)
            (outputValueOf (ev.valueCaps.getD i {}) v)
          connected := true }
        { caps with buttonCount := tb } := by
  simp only [valueRangesLoop]
  rw [hv]

theorem valueRangesLoop_abort_split (ev : RawInputEvent) (tb : Nat) :
    ∀ (l1 : List Nat) (k : Nat) (l2 : List Nat) (st : JoystickState)
      (caps : JoystickCaps),
      (∀ i ∈ l1, (ev.getUsageValue i).isSome) → ev.getUsageValue k = none →
      valueRangesLoop ev tb (l1 ++ k :: l2) st caps =
        { state := (valueRangesLoop ev tb l1 st caps).state,
          caps := (valueRangesLoop ev tb l1 st caps).caps,
          aborted := true } := by
  intro l1
  induction l1 with
  | nil =>
    intro k l2 st caps _ hk
    rw [List.nil_append, valueRangesLoop_fail_head ev tb l2 st caps hk]
    rfl
  | cons i l1' ih =>
    intro k l2 st caps hall hk
    obtain ⟨v, hv⟩ :=
      Option.isSome_iff_exists.mp (hall i (List.mem_cons_self i l1'))
    rw [List.cons_append]
    rw [valueRangesLoop_cons_some ev tb (l1' ++ k :: l2) st caps hv]
    rw [valueRangesLoop_cons_some ev tb l1' st caps hv]
    exact ih k l2 _ _ (fun x hx => hall x (List.mem_cons_of_mem i hx)) hk

theorem valueRangesLoop_buttons (ev : RawInputEvent) (tb : Nat) :
    ∀ (l : List Nat) (st : JoystickState) (caps : JoystickCaps),
      (valueRangesLoop ev tb l st caps).state.buttons = st.buttons := by
  intro l
  induction l with
  | nil => intro st caps; rfl
  | cons i l' ih =>
    intro st caps
    cases hv : ev.getUsageValue i with
    | none => rw [valueRangesLoop_fail_head ev tb l' st caps hv]
    | some v =>
      rw [valueRangesLoop_cons_some ev tb l' st caps hv]
      exact ih _ _

/-- C3 amended: a descriptor or report fetch failure aborts processing of the
current event only, and the slot keeps exactly the mutations applied before
the failing query. Failures before any mutation — the preparsed-data fetch
and the capability-summary (`HidP_GetCaps`) query — leave the registry and
usage buffer entirely unchanged. A button-caps failure, a usages failure at
the first button range, and a usage-value failure at the first value range
(with no button ranges declared) each leave the owning slot changed only in
its axis-capability flags, set for the first min(8, valueRangeCount) ranges —
buttons, axis values, connected flag, identification, token and index
retained, other slots untouched. In general, a usages failure at any
button-range position aborts with exactly the buttons, buffer and running
button total produced by the ranges before it, and a usage-value failure at
any value-range position aborts with exactly the state and capabilities
produced by the value ranges before it; the value loop never alters the
decoded buttons. -/
theorem c3_failure_handling_amended (registry : List JoystickImpl) (buf : Nat → Nat)
    (ev : RawInputEvent) (idx : Nat)
    (hdata : ev.getDataOk = true) (hhid : ev.isHid = true)
    (hfind : findIndexByHandle registry ev.deviceHandle = some idx)
    (hx : (registry.getD idx {}).m_useXInput = false) :
    (¬ ev.preparsedOk → dispatchRawInput registry buf ev = (registry, buf))
    ∧ (ev.preparsedOk → ¬ ev.getCapsOk →
        dispatchRawInput registry buf ev = (registry, buf))
    ∧ (ev.preparsedOk → ev.getCapsOk → ¬ ev.getButtonCapsOk →
        dispatchRawInput registry buf ev =
          (registry.set idx
            { registry.getD idx {} with
              m_caps := { (registry.getD idx {}).m_caps with
                axes := axesCapsUpdate (registry.getD idx {}).m_caps.axes
                  ev.numberInputValueCaps } }, buf))
    ∧ (∀ (r : ButtonCapsRange) (rest : List ButtonCapsRange),
        ev.preparsedOk → ev.getCapsOk → ev.getButtonCapsOk →
        ev.buttonCaps.take ev.numberInputButtonCaps = r :: rest →
        ev.getUsages 0 = none →
        dispatchRawInput registry buf ev =
          (registry.set idx
            { registry.getD idx {} with
              m_caps := { (registry.getD idx {}).m_caps with
                axes := axesCapsUpdate (registry.getD idx {}).m_caps.axes
                  ev.numberInputValueCaps } }, buf))
    ∧ (ev.preparsedOk → ev.getCapsOk → ev.getButtonCapsOk →
        ev.buttonCaps.take ev.numberInputButtonCaps = [] →
        ev.getValueCapsOk →
        0 < min ev.numberInputValueCaps Joystick.AxisCount →
        ev.getUsageValue 0 = none →
        dispatchRawInput registry buf ev =
          (registry.set idx
            { registry.getD idx {} with
              m_caps := { (registry.getD idx {}).m_caps with
                axes := axesCapsUpdate (registry.getD idx {}).m_caps.axes
                  ev.numberInputValueCaps } }, buf))
    ∧ (∀ (l1 : List (Nat × ButtonCapsRange)) (i : Nat) (r : ButtonCapsRange)
        (l2 : List (Nat × ButtonCapsRange)) (buf0 : Nat → Nat) (total startIdx : Nat)
        (bs : List Bool),
        (∀ p ∈ l1, (ev.getUsages p.1).isSome) → ev.getUsages i = none →
        buttonRangesLoop ev (l1 ++ (i, r) :: l2) buf0 total startIdx bs =
          { buttons := (buttonRangesLoop ev l1 buf0 total startIdx bs).buttons,
            buf := (buttonRangesLoop ev l1 buf0 total startIdx bs).buf,
            totalButtons := (buttonRangesLoop ev l1 buf0 total startIdx bs).totalButtons +
              (2 ^ 32 + r.usageMax - r.usageMin + 1) % 2 ^ 32,
            aborted := true })
    ∧ (∀ (tb : Nat) (l1 : List Nat) (k : Nat) (l2 : List Nat) (st : JoystickState)
        (caps : JoystickCaps),
        (∀ i ∈ l1, (ev.getUsageValue i).isSome) → ev.getUsageValue k = none →
        valueRangesLoop ev tb (l1 ++ k :: l2) st caps =
          { state := (valueRangesLoop ev tb l1 st caps).state,
            caps := (valueRangesLoop ev tb l1 st caps).caps,
            aborted := true })
    ∧ (∀ (tb : Nat) (l : List Nat) (st : JoystickState) (caps : JoystickCaps),
        (valueRangesLoop ev tb l st caps).state.buttons = st.buttons) := by
  rw [dispatchRawInput_found registry buf ev idx hdata hhid hfind hx]
  refine ⟨?_, ?_, ?_, ?_, ?_,
    fun l1 i r l2 buf0 total startIdx bs hall hu =>
      buttonRangesLoop_abort_split ev l1 i r l2 buf0 total startIdx bs hall hu,
    fun tb l1 k l2 st caps hall hk =>
      valueRangesLoop_abort_split ev tb l1 k l2 st caps hall hk,
    fun tb l st caps => valueRangesLoop_buttons ev tb l st caps⟩
  · intro hp
    unfold decodeSlot
    rw [if_pos hp]
  · intro hp hc
    unfold decodeSlot
    rw [if_neg (by simpa using hp), if_pos hc]
  · intro hp hc hb
    unfold decodeSlot
    rw [if_neg (by simpa using hp), if_neg (by simpa using hc), if_pos hb]
  · intro r rest hp hc hb htake hu
    unfold decodeSlot
    rw [if_neg (by simpa using hp), if_neg (by simpa using hc),
      if_neg (by simpa using hb), htake]
    rw [show ((r :: rest).enum) = (0, r) :: List.enumFrom 1 rest from rfl]
    rw [buttonRangesLoop_fail_head ev 0 r (List.enumFrom 1 rest) buf 0 0 _ hu]
    dsimp only
    rfl
  · intro hp hc hb htake hvc hn hu0
    unfold decodeSlot
    rw [if_neg (by simpa using hp), if_neg (by simpa using hc),
      if_neg (by simpa using hb), htake]
    rw [show buttonRangesLoop ev (([] : List ButtonCapsRange).enum) buf 0 0
        (registry.getD idx {}).m_state.buttons =
        { buttons := (registry.getD idx {}).m_state.buttons, buf := buf,
          totalButtons := 0, aborted := false } from rfl]
    dsimp only
    rw [if_neg (by decide : ¬ (false = true))]
    rw [if_neg (by simpa using hvc)]
    obtain ⟨m, hm⟩ : ∃ m, min ev.numberInputValueCaps Joystick.AxisCount = m + 1 :=
      ⟨min ev.numberInputValueCaps Joystick.AxisCount - 1,
        (Nat.succ_pred_eq_of_pos hn).symm⟩
    rw [List.range_eq_range', hm]
    rw [show List.range' 0 (m + 1) = 0 :: List.range' 1 m from rfl]
    rw [valueRangesLoop_fail_head ev 0 (List.range' 1 m) _ _ hu0]

/-- C3 amended witness: a concrete event failing at the capability-summary
query leaves the registry and buffer entirely unchanged. -/
theorem c3_failure_handling_amended_witness :
    dispatchRawInput demoReg (fun _ => 0)
      { demoUsagesFailEv with getCapsOk := false } =
      (demoReg, fun _ => 0) :=
  (c3_failure_handling_amended demoReg (fun _ => 0)
    { demoUsagesFailEv with getCapsOk := false } 0
    rfl rfl (by decide) (by decide)).2.1 (by decide) (by decide)

theorem recomputeFromGamepad_packet (j : JoystickImpl) (xs : XInputState) :
    (recomputeFromGamepad j xs).m_xInputPacketNumber = xs.dwPacketNumber := rfl

theorem recomputeFromGamepad_xInputIndex (j : JoystickImpl) (xs : XInputState) :
    (recomputeFromGamepad j xs).m_xInputIndex = j.m_xInputIndex := rfl

theorem updateFromXInput_noop (j : JoystickImpl) (xs : XInputState)
    (h : j.m_xInputPacketNumber = xs.dwPacketNumber) :
    updateFromXInput j xs = j := by
  unfold updateFromXInput
  rw [if_neg (fun hcon => hcon h)]

theorem updateFromXInput_recompute (j : JoystickImpl) (xs : XInputState)
    (h : j.m_xInputPacketNumber ≠ xs.dwPacketNumber) :
    updateFromXInput j xs = recomputeFromGamepad j xs := by
  unfold updateFromXInput
  rw [if_pos h]

theorem updateFromXInput_xInputIndex (j : JoystickImpl) (xs : XInputState) :
    (updateFromXInput j xs).m_xInputIndex = j.m_xInputIndex := by
  unfold updateFromXInput
  by_cases h : j.m_xInputPacketNumber ≠ xs.dwPacketNumber
  · rw [if_pos h]
    exact recomputeFromGamepad_xInputIndex j xs
  · rw [if_neg h]

theorem updateFromXInput_idem (j : JoystickImpl) (xs : XInputState) :
    updateFromXInput (updateFromXInput j xs) xs = updateFromXInput j xs := by
  by_cases h : j.m_xInputPacketNumber ≠ xs.dwPacketNumber
  · rw [updateFromXInput_recompute j xs h]
    exact updateFromXInput_noop _ _ (recomputeFromGamepad_packet j xs)
  · rw [updateFromXInput_noop j xs (not_not.mp h)]
    exact updateFromXInput_noop j xs (not_not.mp h)

theorem applySnapshotToSlots_cons_pos (j : JoystickImpl) (rest : List JoystickImpl)
    (k : Nat) (xs : XInputState) (h : j.m_xInputIndex = k) :
    applySnapshotToSlots (j :: rest) k xs = updateFromXInput j xs :: rest := by
  simp only [applySnapshotToSlots]
  rw [if_pos h]

theorem applySnapshotToSlots_cons_neg (j : JoystickImpl) (rest : List JoystickImpl)
    (k : Nat) (xs : XInputState) (h : ¬ j.m_xInputIndex = k) :
    applySnapshotToSlots (j :: rest) k xs = j :: applySnapshotToSlots rest k xs := by
  simp only [applySnapshotToSlots]
  rw [if_neg h]

theorem applySnapshotToSlots_idem (k : Nat) (xs : XInputState) :
    ∀ l : List JoystickImpl,
      applySnapshotToSlots (applySnapshotToSlots l k xs) k xs =
        applySnapshotToSlots l k xs := by
  intro l
  induction l with
  | nil => rfl
  | cons j rest ih =>
    by_cases h : j.m_xInputIndex = k
    · rw [applySnapshotToSlots_cons_pos j rest k xs h]
      rw [applySnapshotToSlots_cons_pos _ rest k xs
        (by rw [updateFromXInput_xInputIndex]; exact h)]
      rw [updateFromXInput_idem]
    · rw [applySnapshotToSlots_cons_neg j rest k xs h]
      rw [applySnapshotToSlots_cons_neg j _ k xs h]
      rw [ih]

theorem applySnapshotToSlots_comm (k k' : Nat) (hkk : k ≠ k') (xs xs' : XInputState) :
    ∀ l : List JoystickImpl,
      applySnapshotToSlots (applySnapshotToSlots l k xs) k' xs' =
        applySnapshotToSlots (applySnapshotToSlots l k' xs') k xs := by
  intro l
  induction l with
  | nil => rfl
  | cons j rest ih =>
    by_cases h : j.m_xInputIndex = k
    · have h' : j.m_xInputIndex ≠ k' := fun hcon => hkk (hcon ▸ h ▸ rfl)
      rw [applySnapshotToSlots_cons_pos j rest k xs h]
      rw [applySnapshotToSlots_cons_neg _ rest k' xs'
        (by rw [updateFromXInput_xInputIndex]; exact h')]
      rw [applySnapshotToSlots_cons_neg j rest k' xs' h']
      rw [applySnapshotToSlots_cons_pos j _ k xs h]
    · by_cases h' : j.m_xInputIndex = k'
      · rw [applySnapshotToSlots_cons_neg j rest k xs h]
        rw [applySnapshotToSlots_cons_pos j _ k' xs' h']
        rw [applySnapshotToSlots_cons_pos j rest k' xs' h']
        rw [applySnapshotToSlots_cons_neg _ rest k xs
          (by rw [updateFromXInput_xInputIndex]; exact h)]
      · rw [applySnapshotToSlots_cons_neg j rest k xs h]
        rw [applySnapshotToSlots_cons_neg j _ k' xs' h']
        rw [applySnapshotToSlots_cons_neg j rest k' xs' h']
        rw [applySnapshotToSlots_cons_neg j _ k xs h]
        rw [ih]

theorem xinputStep_idem (snaps : Nat → Option XInputState) (k : Nat)
    (r : List JoystickImpl) :
    xinputStep snaps k (xinputStep snaps k r) = xinputStep snaps k r := by
  unfold xinputStep
  cases snaps k with
  | none => rfl
  | some xs => exact applySnapshotToSlots_idem k xs r

theorem xinputStep_comm (snaps : Nat → Option XInputState) (k k' : Nat) (hkk : k ≠ k')
    (r : List JoystickImpl) :
    xinputStep snaps k (xinputStep snaps k' r) =
      xinputStep snaps k' (xinputStep snaps k r) := by
  unfold xinputStep
  cases snaps k with
  | none => cases snaps k' <;> rfl
  | some xs =>
    cases snaps k' with
    | none => rfl
    | some xs' => exact (applySnapshotToSlots_comm k' k (fun hcon => hkk hcon.symm) xs' xs r)

theorem dispatchXInput_as_steps (reg : List JoystickImpl)
    (snaps : Nat → Option XInputState) :
    dispatchXInput reg snaps =
      xinputStep snaps 3 (xinputStep snaps 2 (xinputStep snaps 1 (xinputStep snaps 0 reg))) :=
  rfl

theorem dispatchXInput_idem (reg : List JoystickImpl)
    (snaps : Nat → Option XInputState) :
    dispatchXInput (dispatchXInput reg snaps) snaps = dispatchXInput reg snaps := by
  rw [dispatchXInput_as_steps, dispatchXInput_as_steps]
  rw [xinputStep_comm snaps 0 3 (by decide), xinputStep_comm snaps 0 2 (by decide),
    xinputStep_comm snaps 0 1 (by decide), xinputStep_idem snaps 0]
  rw [xinputStep_comm snaps 1 3 (by decide), xinputStep_comm snaps 1 2 (by decide),
    xinputStep_idem snaps 1]
  rw [xinputStep_comm snaps 2 3 (by decide), xinputStep_idem snaps 2]
  rw [xinputStep_idem snaps 3]

/-- C7: for a poll-backed slot, a tick whose snapshot packet number equals the
stored one leaves the slot unchanged (idempotent no-op); a differing packet
number stores the new one and performs exactly one recomputation of the slot's
buttons and axes (`recomputeFromGamepad`); hence two consecutive full tick
dispatches over identical snapshots yield an identical registry. -/
theorem c7_sequence_dedup (j : JoystickImpl) (xs : XInputState)
    (reg : List JoystickImpl) (snaps : Nat → Option XInputState) :
    (j.m_xInputPacketNumber = xs.dwPacketNumber → updateFromXInput j xs = j)
    ∧ (j.m_xInputPacketNumber ≠ xs.dwPacketNumber →
        updateFromXInput j xs = recomputeFromGamepad j xs
        ∧ (updateFromXInput j xs).m_xInputPacketNumber = xs.dwPacketNumber)
    ∧ dispatchXInput (dispatchXInput reg snaps) snaps = dispatchXInput reg snaps := by
  refine ⟨updateFromXInput_noop j xs, ?_, dispatchXInput_idem reg snaps⟩
  intro h
  refine ⟨updateFromXInput_recompute j xs h, ?_⟩
  rw [updateFromXInput_recompute j xs h]
  exact recomputeFromGamepad_packet j xs

/-- C7 witness: the poll-backed demo slot with stored packet 5 is unchanged by
a tick whose snapshot also carries packet 5. -/
theorem c7_sequence_dedup_witness :
    updateFromXInput demoPollSlot { demoSnap with dwPacketNumber := 5 } = demoPollSlot :=
  (c7_sequence_dedup demoPollSlot { demoSnap with dwPacketNumber := 5 }
    [demoPollSlot] (fun _ => none)).1 rfl

theorem thumbstickScaleFactor_pos : (0 : Rat) < thumbstickScaleFactor := by
  rw [thumbstickScaleFactor]; norm_num

theorem triggerScaleFactor_pos : (0 : Rat) < triggerScaleFactor := by
  rw [triggerScaleFactor]; norm_num

/-- C8 amended: each recomputed stick axis equals the deadzone-guarded raw
value divided by 327.67, each trigger axis the raw byte divided by 2.55; a raw
magnitude below the deadzone threshold (7849 / 4 = 1962, integer division)
yields 0, threshold - 1 in particular; for raw in [-32767, 32767] the stick
value lands in [-100, 100] with raw 32767 giving exactly 100 (idealized
arithmetic), while the extreme SHORT value -32768 lands just below -100 (see
the counterexample); triggers land in [0, 100]. -/
theorem c8_xinput_axis_scaling_amended (j : JoystickImpl) (xs : XInputState)
    (raw : Int) (t : Nat) :
    ((recomputeFromGamepad j xs).m_state.axes Axis.X = stickAxisValue xs.Gamepad.sThumbLX
      ∧ (recomputeFromGamepad j xs).m_state.axes Axis.Y = stickAxisValue xs.Gamepad.sThumbLY
      ∧ (recomputeFromGamepad j xs).m_state.axes Axis.Z = stickAxisValue xs.Gamepad.sThumbRX
      ∧ (recomputeFromGamepad j xs).m_state.axes Axis.R = stickAxisValue xs.Gamepad.sThumbRY
      ∧ (recomputeFromGamepad j xs).m_state.axes Axis.U
          = (xs.Gamepad.bLeftTrigger : Rat) / triggerScaleFactor
      ∧ (recomputeFromGamepad j xs).m_state.axes Axis.V
          = (xs.Gamepad.bRightTrigger : Rat) / triggerScaleFactor)
    ∧ (|raw| < deadzoneVal → stickAxisValue raw = 0)
    ∧ (-32767 ≤ raw → raw ≤ 32767 →
        -100 ≤ stickAxisValue raw ∧ stickAxisValue raw ≤ 100)
    ∧ (t ≤ 255 → 0 ≤ (t : Rat) / triggerScaleFactor ∧ (t : Rat) / triggerScaleFactor ≤ 100)
    ∧ stickAxisValue (deadzoneVal - 1) = 0
    ∧ stickAxisValue 32767 = 100 := by
  refine ⟨⟨?_, ?_, ?_, ?_, ?_, ?_⟩, ?_, ?_, ?_, ?_, ?_⟩
  · simp [recomputeFromGamepad, Function.update]
  · simp [recomputeFromGamepad, Function.update]
  · simp [recomputeFromGamepad, Function.update]
  · simp [recomputeFromGamepad, Function.update]
  · simp [recomputeFromGamepad, Function.update]
  · simp [recomputeFromGamepad, Function.update]
  · intro h
    rw [stickAxisValue, if_pos h]
  · intro h1 h2
    by_cases h : |raw| < deadzoneVal
    · rw [stickAxisValue, if_pos h]
      norm_num
    · rw [stickAxisValue, if_neg h]
      constructor
      · rw [le_div_iff₀ thumbstickScaleFactor_pos, thumbstickScaleFactor]
        have : (-32767 : Rat) ≤ (raw : Rat) := by exact_mod_cast h1
        norm_num
        linarith
      · rw [div_le_iff₀ thumbstickScaleFactor_pos, thumbstickScaleFactor]
        have : (raw : Rat) ≤ (32767 : Rat) := by exact_mod_cast h2
        norm_num
        linarith
  · intro ht
    constructor
    · exact div_nonneg (by positivity) (le_of_lt triggerScaleFactor_pos)
    · rw [div_le_iff₀ triggerScaleFactor_pos, triggerScaleFactor]
      have : (t : Rat) ≤ (255 : Rat) := by exact_mod_cast ht
      norm_num
      linarith
  · rw [stickAxisValue, if_pos (by decide)]
  · rw [stickAxisValue, if_neg (by decide), thumbstickScaleFactor]
    norm_num

/-- C8 amended witness: raw stick value 20000 scales into [-100, 100], raw
1961 (threshold - 1) yields 0, and trigger byte 255 scales to at most 100. -/
theorem c8_xinput_axis_scaling_amended_witness :
    (-100 ≤ stickAxisValue 20000 ∧ stickAxisValue 20000 ≤ 100)
    ∧ stickAxisValue (deadzoneVal - 1) = 0
    ∧ (255 : Rat) / triggerScaleFactor ≤ 100 := by
  have h := c8_xinput_axis_scaling_amended demoPollSlot demoSnap 20000 255
  exact ⟨h.2.2.1 (by decide) (by decide),
    h.2.2.2.2.1,
    by
      have h255 := (h.2.2.2.1 (le_refl 255)).2
      exact_mod_cast h255⟩

theorem hexVal_bounds {c : Char} {n : Nat} (h : hexVal c = some n) :
    n ≤ 15 ∧ 48 ≤ c.toNat := by
  unfold hexVal at h
  split_ifs at h with h1 h2 h3 <;> injection h with h <;> omega

theorem isSpaceW_toNat {c : Char} (h : isSpaceW c = true) : c.toNat ≤ 32 := by
  simp only [isSpaceW, Bool.or_eq_true, decide_eq_true_eq] at h
  rcases h with ((((h | h) | h) | h) | h) | h <;> subst h <;> decide

theorem hexVal_not_space {c : Char} {n : Nat} (h : hexVal c = some n) :
    isSpaceW c = false := by
  cases hsp : isSpaceW c with
  | false => rfl
  | true =>
    have h1 := isSpaceW_toNat hsp
    have h2 := (hexVal_bounds h).2
    omega

theorem hexVal_ne_of_none {c x : Char} {n : Nat} (h : hexVal c = some n)
    (hx : hexVal x = none) : ¬ c = x := by
  intro hc
  rw [hc, hx] at h
  exact Option.noConfusion h

theorem parseHexDigits_cons {c : Char} {d : Nat} (rest : List Char) (acc : Nat)
    (h : hexVal c = some d) :
    parseHexDigits (c :: rest) acc = parseHexDigits rest (acc * 16 + d) := by
  simp only [parseHexDigits]
  rw [h]

theorem parseHexDigits_four {a b c d : Char} {na nb nc nd : Nat}
    (ha : hexVal a = some na) (hb : hexVal b = some nb)
    (hc : hexVal c = some nc) (hd : hexVal d = some nd) (acc : Nat) :
    parseHexDigits [a, b, c, d] acc =
      ((((acc * 16 + na) * 16 + nb) * 16 + nc) * 16 + nd, []) := by
  rw [parseHexDigits_cons _ _ ha, parseHexDigits_cons _ _ hb,
    parseHexDigits_cons _ _ hc, parseHexDigits_cons _ _ hd]
  rfl

/-- `wcstoul` on a four-hex-digit string: consumed fully, no sign, no prefix,
value is the base-16 reading. -/
theorem wcstoulHexFull_four_hex {a b c d : Char} {na nb nc nd : Nat}
    (ha : hexVal a = some na) (hb : hexVal b = some nb)
    (hc : hexVal c = some nc) (hd : hexVal d = some nd) :
    wcstoulHexFull [a, b, c, d] = some (na * 4096 + nb * 256 + nc * 16 + nd) := by
  have hnulv : hexVal (Char.ofNat 0) = none := by decide
  have hna : ¬ a = Char.ofNat 0 := hexVal_ne_of_none ha hnulv
  have hnb : ¬ b = Char.ofNat 0 := hexVal_ne_of_none hb hnulv
  have hnc : ¬ c = Char.ofNat 0 := hexVal_ne_of_none hc hnulv
  have hnd : ¬ d = Char.ofNat 0 := hexVal_ne_of_none hd hnulv
  have htake : ([a, b, c, d].takeWhile fun x => x ≠ Char.ofNat 0) = [a, b, c, d] := by
    simp [List.takeWhile_cons, hna, hnb, hnc, hnd]
  have hdrop : ([a, b, c, d].dropWhile isSpaceW) = [a, b, c, d] := by
    rw [List.dropWhile_cons, hexVal_not_space ha, if_neg (by simp)]
  have hminus : ¬ a = '-' := hexVal_ne_of_none ha (by decide)
  have hplus : ¬ a = '+' := hexVal_ne_of_none ha (by decide)
  have hbx : ¬ b = 'x' := hexVal_ne_of_none hb (by decide)
  have hbX : ¬ b = 'X' := hexVal_ne_of_none hb (by decide)
  have hsign : wcstoulStripSign [a, b, c, d] = (false, [a, b, c, d]) := by
    simp only [wcstoulStripSign]
    rw [if_neg hminus, if_neg hplus]
  have h0x : wcstoulStrip0x [a, b, c, d] = [a, b, c, d] := by
    simp only [wcstoulStrip0x]
    rw [decide_eq_false hbx, decide_eq_false hbX]
    simp
  have b1 := (hexVal_bounds ha).1
  have b2 := (hexVal_bounds hb).1
  have b3 := (hexVal_bounds hc).1
  have b4 := (hexVal_bounds hd).1
  unfold wcstoulHexFull
  rw [htake, hdrop, hsign, h0x]
  simp only [wcstoulDigits]
  rw [parseHexDigits_four ha hb hc hd]
  rw [show (hexVal a).isSome = true by rw [ha]; rfl]
  rw [if_pos rfl, if_pos rfl]
  rw [if_neg (by omega)]
  rw [if_neg (show ¬ (false = true) from Bool.false_ne_true)]
  congr 1
  omega

/-- C6 amended: when the first `VID_` and `PID_` markers are each followed (in
bounds) by four hexadecimal characters, identity resolution returns exactly
the two 16-bit values they denote; it fails when either marker is missing,
when fewer than 4 characters follow a marker, when the 4-character window is
rejected by the `wcstoul`-style parse — which, unlike the claim's
all-hexadecimal condition, also accepts windows carrying leading whitespace, a
sign, or a `0x` prefix (see the counterexample) — or when the parsed value
exceeds 0xFFFF. -/
theorem c6_resolve_identity_amended (path : List Char) :
    (∀ (v0 p0 : Nat) (a b c d e1 f1 g1 h1 : Char) (na nb nc nd ne1 nf1 ng1 nh1 : Nat),
      findMarker path vidPat = some v0 →
      findMarker path pidPat = some p0 →
      ¬ v0 + 4 + 4 > path.length →
      ¬ p0 + 4 + 4 > path.length →
      (path.drop (v0 + 4)).take 4 = [a, b, c, d] →
      (path.drop (p0 + 4)).take 4 = [e1, f1, g1, h1] →
      hexVal a = some na → hexVal b = some nb →
      hexVal c = some nc → hexVal d = some nd →
      hexVal e1 = some ne1 → hexVal f1 = some nf1 →
      hexVal g1 = some ng1 → hexVal h1 = some nh1 →
      extractVidPid path = some
        { vid := na * 4096 + nb * 256 + nc * 16 + nd,
          pid := ne1 * 4096 + nf1 * 256 + ng1 * 16 + nh1 })
    ∧ (findMarker path vidPat = none → extractVidPid path = none)
    ∧ (∀ v0, findMarker path vidPat = some v0 → v0 + 4 + 4 > path.length →
        extractVidPid path = none)
    ∧ (∀ v0, findMarker path vidPat = some v0 → ¬ v0 + 4 + 4 > path.length →
        findMarker path pidPat = none → extractVidPid path = none)
    ∧ (∀ v0 p0, findMarker path vidPat = some v0 → ¬ v0 + 4 + 4 > path.length →
        findMarker path pidPat = some p0 → ¬ p0 + 4 + 4 > path.length →
        wcstoulHexFull ((path.drop (v0 + 4)).take 4) = none →
        extractVidPid path = none)
    ∧ (∀ v0 p0 v, findMarker path vidPat = some v0 → ¬ v0 + 4 + 4 > path.length →
        findMarker path pidPat = some p0 → ¬ p0 + 4 + 4 > path.length →
        wcstoulHexFull ((path.drop (v0 + 4)).take 4) = some v → v > 0xFFFF →
        extractVidPid path = none) := by
  refine ⟨?_, ?_, ?_, ?_, ?_, ?_⟩
  · intro v0 p0 a b c d e1 f1 g1 h1 na nb nc nd ne1 nf1 ng1 nh1
    intro hfv hfp hlv hlp hvid hpid ha hb hc hd he hf hg hh
    have bv1 := (hexVal_bounds ha).1
    have bv2 := (hexVal_bounds hb).1
    have bv3 := (hexVal_bounds hc).1
    have bv4 := (hexVal_bounds hd).1
    have bp1 := (hexVal_bounds he).1
    have bp2 := (hexVal_bounds hf).1
    have bp3 := (hexVal_bounds hg).1
    have bp4 := (hexVal_bounds hh).1
    unfold extractVidPid
    rw [hfv]
    dsimp only
    rw [if_neg hlv, hfp]
    dsimp only
    rw [if_neg hlp, hvid, hpid]
    rw [wcstoulHexFull_four_hex ha hb hc hd]
    dsimp only
    rw [if_neg (by omega)]
    rw [wcstoulHexFull_four_hex he hf hg hh]
    dsimp only
    rw [if_neg (by omega)]
  · intro h
    unfold extractVidPid
    rw [h]
  · intro v0 hfv hlen
    unfold extractVidPid
    rw [hfv]
    dsimp only
    rw [if_pos hlen]
  · intro v0 hfv hlv hfp
    unfold extractVidPid
    rw [hfv]
    dsimp only
    rw [if_neg hlv, hfp]
  · intro v0 p0 hfv hlv hfp hlp hw
    unfold extractVidPid
    rw [hfv]
    dsimp only
    rw [if_neg hlv, hfp]
    dsimp only
    rw [if_neg hlp, hw]
  · intro v0 p0 v hfv hlv hfp hlp hw hv
    unfold extractVidPid
    rw [hfv]
    dsimp only
    rw [if_neg hlv, hfp]
    dsimp only
    rw [if_neg hlp, hw]
    dsimp only
    rw [if_pos hv]

/-- C6 amended witness: the path `VID_045EPID_028E` resolves to vid 0x045E
and pid 0x028E. -/
theorem c6_resolve_identity_amended_witness :
    extractVidPid ("VID_045EPID_028E".toList) = some { vid := 1118, pid := 654 } := by
  have h := (c6_resolve_identity_amended ("VID_045EPID_028E".toList)).1
    0 8 '0' '4' '5' 'E' '0' '2' '8' 'E' 0 4 5 14 0 2 8 14
    (by decide) (by decide) (by decide) (by decide) (by decide) (by decide)
    (by decide) (by decide) (by decide) (by decide) (by decide) (by decide)
    (by decide) (by decide)
  exact h

theorem builtJoystick_handle (ev : ArrivalEvent) (n : Nat) :
    (builtJoystick ev n).m_lastDeviceHandle = some ev.handle := by
  unfold builtJoystick
  dsimp only
  repeat' split
  all_goals rfl

theorem builtJoystick_unassigned (ev : ArrivalEvent) (n : Nat) :
    (builtJoystick ev n).m_xInputIndex = UNASSIGNED := by
  unfold builtJoystick
  dsimp only
  repeat' split
  all_goals rfl

theorem builtJoystick_xinput (ev : ArrivalEvent) (n : Nat) :
    (builtJoystick ev n).m_useXInput = arrivalIsXInput ev := by
  unfold builtJoystick arrivalIsXInput
  dsimp only
  repeat' split
  all_goals simp_all

theorem placeLoop_length (newJ : JoystickImpl) :
    ∀ (l : List JoystickImpl) (c : Nat), (placeLoop newJ l c).length = l.length := by
  intro l
  induction l with
  | nil => intro c; rfl
  | cons j rest ih =>
    intro c
    unfold placeLoop
    by_cases h : j.m_lastDeviceHandle = none
    · rw [if_pos h]
      split <;> rfl
    · rw [if_neg h]
      simp [ih]

theorem pollChain_cons_pos {j : JoystickImpl} {rest : List JoystickImpl} {c : Nat}
    (h : j.m_xInputIndex ≠ UNASSIGNED) :
    pollChain (j :: rest) c ↔ (j.m_xInputIndex = c ∧ pollChain rest (c + 1)) := by
  simp only [pollChain]
  rw [if_pos h]

theorem pollChain_cons_neg {j : JoystickImpl} {rest : List JoystickImpl} {c : Nat}
    (h : ¬ j.m_xInputIndex ≠ UNASSIGNED) :
    pollChain (j :: rest) c ↔ pollChain rest c := by
  simp only [pollChain]
  rw [if_neg h]

theorem countAssigned_cons_pos {j : JoystickImpl} (l : List JoystickImpl)
    (h : j.m_xInputIndex ≠ UNASSIGNED) :
    countAssigned (j :: l) = countAssigned l + 1 := by
  unfold countAssigned
  rw [List.filter_cons, if_pos (by simp [isAssigned, h])]
  rfl

theorem countAssigned_cons_neg {j : JoystickImpl} (l : List JoystickImpl)
    (h : ¬ j.m_xInputIndex ≠ UNASSIGNED) :
    countAssigned (j :: l) = countAssigned l := by
  unfold countAssigned
  rw [List.filter_cons, if_neg (by simp [isAssigned]; exact not_not.mp h)]

theorem placeLoop_append_occupied (newJ : JoystickImpl) :
    ∀ (pre rest : List JoystickImpl) (c : Nat),
      (∀ j ∈ pre, j.m_lastDeviceHandle ≠ none) →
      placeLoop newJ (pre ++ rest) c = pre ++ placeLoop newJ rest (c + countAssigned pre) := by
  intro pre
  induction pre with
  | nil =>
    intro rest c _
    simp [countAssigned]
  | cons j pre' ih =>
    intro rest c hocc
    have hj : j.m_lastDeviceHandle ≠ none := hocc j (List.mem_cons_self j pre')
    have hrest : ∀ x ∈ pre', x.m_lastDeviceHandle ≠ none :=
      fun x hx => hocc x (List.mem_cons_of_mem j hx)
    show placeLoop newJ (j :: (pre' ++ rest)) c = _
    simp only [placeLoop]
    rw [if_neg hj]
    by_cases h : j.m_xInputIndex ≠ UNASSIGNED
    · rw [if_pos h, ih rest (c + 1) hrest, countAssigned_cons_pos pre' h]
      have harith : c + 1 + countAssigned pre' = c + (countAssigned pre' + 1) := by omega
      rw [harith]
      rfl
    · rw [if_neg h, ih rest c hrest, countAssigned_cons_neg pre' h]
      rfl

theorem pollChain_append {l l' : List JoystickImpl} :
    ∀ c : Nat, pollChain l c → pollChain l' (c + countAssigned l) → pollChain (l ++ l') c := by
  induction l with
  | nil =>
    intro c _ h'
    simpa [countAssigned] using h'
  | cons j rest ih =>
    intro c hchain h'
    by_cases h : j.m_xInputIndex ≠ UNASSIGNED
    · obtain ⟨hidx, hrest⟩ := (pollChain_cons_pos h).mp hchain
      refine (pollChain_cons_pos h).mpr ⟨hidx, ih (c + 1) hrest ?_⟩
      rw [countAssigned_cons_pos rest h] at h'
      have : c + 1 + countAssigned rest = c + (countAssigned rest + 1) := by omega
      rw [this]
      exact h'
    · have hrest := (pollChain_cons_neg h).mp hchain
      refine (pollChain_cons_neg h).mpr (ih c hrest ?_)
      rw [countAssigned_cons_neg rest h] at h'
      exact h'

theorem pollChain_filter_map {l : List JoystickImpl} :
    ∀ c : Nat, pollChain l c →
      (l.filter isAssigned).map (fun j => j.m_xInputIndex) =
        List.range' c (countAssigned l) := by
  induction l with
  | nil => intro c _; rfl
  | cons j rest ih =>
    intro c hchain
    by_cases h : j.m_xInputIndex ≠ UNASSIGNED
    · obtain ⟨hidx, hrest⟩ := (pollChain_cons_pos h).mp hchain
      rw [List.filter_cons, if_pos (by simp [isAssigned, h])]
      rw [List.map_cons, ih (c + 1) hrest, hidx, countAssigned_cons_pos rest h]
      rfl
    · have hrest := (pollChain_cons_neg h).mp hchain
      rw [List.filter_cons, if_neg (by simp [isAssigned]; exact not_not.mp h)]
      rw [ih c hrest, countAssigned_cons_neg rest h]

theorem placeLoop_free_cons (newJ s : JoystickImpl) (suf' : List JoystickImpl) (k : Nat)
    (hs1 : s.m_lastDeviceHandle = none) (hs2 : s.m_xInputIndex = UNASSIGNED) :
    placeLoop newJ (s :: suf') k =
      (if newJ.m_useXInput then { newJ with m_xInputIndex := k } else newJ) :: suf' := by
  simp only [placeLoop]
  rw [if_neg (not_not_intro hs2), if_pos hs1]

theorem regInv_preserved (reg : List JoystickImpl) (ev : ArrivalEvent)
    (hinv : RegInv reg) : RegInv (dispatchDeviceConnected reg ev) := by
  obtain ⟨pre, suf, hreg, hocc, hfree, hchain, hlen⟩ := hinv
  subst hreg
  unfold dispatchDeviceConnected
  rw [placeLoop_append_occupied _ pre suf 0 hocc]
  cases suf with
  | nil =>
    exact ⟨pre, [], rfl, hocc, by simp, hchain, by simpa using hlen⟩
  | cons s suf' =>
    have hs := hfree s (List.mem_cons_self s suf')
    rw [placeLoop_free_cons _ s suf' _ hs.1 hs.2]
    have hkne : 0 + countAssigned pre ≠ UNASSIGNED := by
      have h1 : countAssigned pre ≤ pre.length := List.length_filter_le _ _
      have h2 : pre.length ≤ (pre ++ s :: suf').length := by
        simp [List.length_append]
      omega
    refine ⟨pre ++
      [if (builtJoystick ev (pre ++ s :: suf').length).m_useXInput then
        { builtJoystick ev (pre ++ s :: suf').length with
          m_xInputIndex := 0 + countAssigned pre }
      else builtJoystick ev (pre ++ s :: suf').length],
      suf', by simp, ?_, ?_, ?_, ?_⟩
    · intro j hj
      rcases List.mem_append.mp hj with hj | hj
      · exact hocc j hj
      · have hj' : j = _ := List.mem_singleton.mp hj
        subst hj'
        split
        · rw [show ({ builtJoystick ev (pre ++ s :: suf').length with
              m_xInputIndex := 0 + countAssigned pre } : JoystickImpl).m_lastDeviceHandle =
              (builtJoystick ev (pre ++ s :: suf').length).m_lastDeviceHandle from rfl]
          rw [builtJoystick_handle]
          exact Option.some_ne_none _
        · rw [builtJoystick_handle]
          exact Option.some_ne_none _
    · intro j hj
      exact hfree j (List.mem_cons_of_mem s hj)
    · refine pollChain_append 0 hchain ?_
      by_cases hx : (builtJoystick ev (pre ++ s :: suf').length).m_useXInput = true
      · rw [if_pos hx]
        refine (pollChain_cons_pos ?_).mpr ⟨rfl, trivial⟩
        exact hkne
      · rw [if_neg hx]
        refine (pollChain_cons_neg ?_).mpr trivial
        rw [builtJoystick_unassigned]
        exact not_not_intro rfl
    · simp only [List.length_append, List.length_cons, List.length_singleton] at hlen ⊢
      omega

theorem regInv_initial : RegInv initialRegistry := by
  refine ⟨[], initialRegistry, rfl, by simp, ?_, trivial, by decide⟩
  intro j hj
  unfold initialRegistry at hj
  rcases List.mem_map.mp hj with ⟨i, _, hji⟩
  subst hji
  exact ⟨rfl, rfl⟩

theorem regInv_applyArrivals (evs : List ArrivalEvent) :
    ∀ reg : List JoystickImpl, RegInv reg → RegInv (applyArrivals evs reg) := by
  induction evs with
  | nil => intro reg h; exact h
  | cons ev evs' ih =>
    intro reg h
    exact ih (dispatchDeviceConnected reg ev) (regInv_preserved reg ev h)

theorem regInv_filter_map_range {reg : List JoystickImpl} (hinv : RegInv reg) :
    (reg.filter isAssigned).map (fun j => j.m_xInputIndex) =
      List.range' 0 (countAssigned reg) := by
  obtain ⟨pre, suf, hreg, _, hfree, hchain, _⟩ := hinv
  subst hreg
  have hsuf : suf.filter isAssigned = [] := by
    rw [List.filter_eq_nil_iff]
    intro j hj
    simp [isAssigned, (hfree j hj).2]
  rw [List.filter_append, hsuf, List.append_nil]
  rw [pollChain_filter_map 0 hchain]
  congr 1
  unfold countAssigned
  rw [List.filter_append, hsuf, List.append_nil]

/-- C5 amended: over arrival-only histories (no departures) the poll indices
held by currently poll-backed slots, read in slot order, are exactly
0, 1, ..., k-1 — in particular pairwise distinct — and a newly arrived
poll-backed device is assigned the next available index k (the current count
of poll-backed slots). After a departure the invariant can break, because
`dispatchDeviceRemoved` does not clear the slot's poll index and the
assignment counter counts the stale value (see the counterexample). -/
theorem c5_poll_index_arrival_only (evs : List ArrivalEvent) (ev : ArrivalEvent) :
    (((applyArrivals evs initialRegistry).filter isAssigned).map
        (fun j => j.m_xInputIndex) =
      List.range' 0 (countAssigned (applyArrivals evs initialRegistry)))
    ∧ (((applyArrivals evs initialRegistry).filter isAssigned).map
        (fun j => j.m_xInputIndex)).Nodup
    ∧ (arrivalIsXInput ev = true →
        (∃ j ∈ applyArrivals evs initialRegistry, j.m_lastDeviceHandle = none) →
        ((dispatchDeviceConnected (applyArrivals evs initialRegistry) ev).filter
            isAssigned).map (fun j => j.m_xInputIndex) =
          ((applyArrivals evs initialRegistry).filter isAssigned).map
              (fun j => j.m_xInputIndex)
            ++ [countAssigned (applyArrivals evs initialRegistry)]) := by
  have hinv := regInv_applyArrivals evs initialRegistry regInv_initial
  refine ⟨regInv_filter_map_range hinv, ?_, ?_⟩
  · rw [regInv_filter_map_range hinv]
    exact List.nodup_range' 0 _ 1 Nat.one_pos
  · intro hxi hfex
    obtain ⟨pre, suf, hreg, hocc, hfree, hchain, hlen⟩ := hinv
    rw [hreg] at hfex hlen ⊢
    cases suf with
    | nil =>
      exfalso
      obtain ⟨j, hj, hjn⟩ := hfex
      rw [List.append_nil] at hj
      exact hocc j hj hjn
    | cons s suf' =>
      have hs := hfree s (List.mem_cons_self s suf')
      have hsufall : ∀ j ∈ s :: suf', isAssigned j = false :=
        fun j hj => by simp [isAssigned, (hfree j hj).2]
      have hsufF : (s :: suf').filter isAssigned = [] :=
        List.filter_eq_nil_iff.mpr (fun j hj => by rw [hsufall j hj]; exact Bool.false_ne_true)
      have hsufF' : suf'.filter isAssigned = [] :=
        List.filter_eq_nil_iff.mpr
          (fun j hj => by rw [hsufall j (List.mem_cons_of_mem s hj)]; exact Bool.false_ne_true)
      have hkne : 0 + countAssigned pre ≠ UNASSIGNED := by
        have h1 : countAssigned pre ≤ pre.length := List.length_filter_le _ _
        have h2 : pre.length ≤ (pre ++ s :: suf').length := by simp [List.length_append]
        omega
      unfold dispatchDeviceConnected
      rw [placeLoop_append_occupied _ pre _ 0 hocc,
        placeLoop_free_cons _ s suf' _ hs.1 hs.2]
      have hx : (builtJoystick ev (pre ++ s :: suf').length).m_useXInput = true := by
        rw [builtJoystick_xinput]
        exact hxi
      rw [if_pos hx]
      rw [List.filter_append, List.filter_cons]
      rw [if_pos (by simpa [isAssigned] using hkne)]
      rw [hsufF']
      rw [List.filter_append, hsufF, List.append_nil]
      rw [List.map_append]
      have hcount : countAssigned (pre ++ s :: suf') = countAssigned pre := by
        unfold countAssigned
        rw [List.filter_append, hsufF, List.append_nil]
      rw [hcount]
      simp

/-- C5 amended witness: after two XInput arrivals, the assigned poll indices
are exactly 0 and 1 (distinct), and a third arrival is assigned index 2. -/
theorem c5_poll_index_arrival_only_witness :
    ((applyArrivals [demoXInputArrival 1, demoXInputArrival 2]
        initialRegistry).filter isAssigned).map (fun j => j.m_xInputIndex) =
      List.range' 0 (countAssigned (applyArrivals
        [demoXInputArrival 1, demoXInputArrival 2] initialRegistry))
    ∧ ((dispatchDeviceConnected (applyArrivals
          [demoXInputArrival 1, demoXInputArrival 2] initialRegistry)
          (demoXInputArrival 3)).filter isAssigned).map (fun j => j.m_xInputIndex) =
        ((applyArrivals [demoXInputArrival 1, demoXInputArrival 2]
            initialRegistry).filter isAssigned).map (fun j => j.m_xInputIndex)
          ++ [countAssigned (applyArrivals [demoXInputArrival 1, demoXInputArrival 2]
              initialRegistry)] := by
  have h := c5_poll_index_arrival_only [demoXInputArrival 1, demoXInputArrival 2]
    (demoXInputArrival 3)
  exact ⟨h.1, h.2.2 (by decide) (by decide)⟩

end SFML
